import Mathlib

/-!
Verification development for the sleep/medication correlation engine of the
`sleepanalysis` repository.

The embedding translates, as closely as the shallow style allows:
  * `src/services/medicationParser.ts` — night attribution of dose events
    (`groupMedicationsBySleepNight`) and medication aggregation
    (`getUniqueMedications`);
  * `src/services/correlationEngine.ts` — `alignData` and
    `runCorrelationAnalysis`;
  * the statistical kernel (`statisticalAnalysis.ts`, shipped unnamed in the
    source tree) — Pearson/Spearman correlation, p-values via a t-distribution
    CDF, Fisher-transform confidence intervals, Cohen effect size, and the
    per-pair `analyzeCorrelation` record builder.

Modelling conventions:
  * Calendar dates are year/month/day triples; `prevDate` mirrors the
    JavaScript `setDate(getDate() - 1)` borrow across month and year
    boundaries.
  * JavaScript `Map`s are insertion-ordered association lists with unique
    keys; `mapSet` / `mapGet` mirror `Map.set` / `Map.get`.
  * Quantities that the TypeScript stores exactly (doses in mg, metric
    values) are rationals; the floating-point statistical kernel is embedded
    over the real numbers. Where the source can produce IEEE non-finite
    values — the 0/0 divisions reachable from a zero-variance list inside
    `sampleCorrelation` and from two singleton groups inside the pooled
    variance of `cohensD` — Option-valued refinements (`jsdiv`,
    `sampleCorrelationJs`, `pearsonCorrelationJs`, `pooledVarianceJs`,
    `cohensDJs`) track the non-finite result as `none`. The plain
    real-valued definitions use the total division of Lean (0/0 = 0) and
    are relied on only at inputs where no zero division occurs, or in
    claims whose content does not depend on the collapsed value.
  * Fields of source records that no verified claim inspects and that are
    pure presentation (regex display names, per-class aggregate buckets,
    descriptive sleep statistics) are omitted; each omission is noted at the
    definition it concerns.
-/

namespace SleepAnalysis

/-- Calendar date, the engine's date keys (ISO `yyyy-mm-dd` strings in the
source; for valid dates the lexicographic string order used by the source's
sorts coincides with the calendar order modelled by `dateLe` below). -/
structure CalDate where
  year : Nat
  month : Nat
  day : Nat
deriving DecidableEq, Repr

/-- Gregorian leap-year rule, as implemented by the JavaScript `Date`
rollover that `prevDate` models. -/
def isLeapYear (y : Nat) : Bool :=
  y % 4 = 0 && (y % 100 != 0 || y % 400 = 0)

/-- Number of days in a month, used when `prevDate` borrows from the
previous month. -/
def daysInMonth (y m : Nat) : Nat :=
  if m = 2 then (if isLeapYear y then 29 else 28)
  else if m = 4 ∨ m = 6 ∨ m = 9 ∨ m = 11 then 30
  else 31

/-- The previous calendar date: the effect of `setDate(getDate() - 1)` on a
JavaScript `Date`, including month and year borrows. -/
def prevDate (d : CalDate) : CalDate :=
  if 1 < d.day then ⟨d.year, d.month, d.day - 1⟩
  else if 1 < d.month then ⟨d.year, d.month - 1, daysInMonth d.year (d.month - 1)⟩
  else ⟨d.year - 1, 12, 31⟩

/-- Calendar order on dates (the order of the ISO strings the source sorts). -/
def dateLe (a b : CalDate) : Prop :=
  a.year < b.year ∨
    (a.year = b.year ∧ (a.month < b.month ∨ (a.month = b.month ∧ a.day ≤ b.day)))

instance : DecidableRel dateLe := fun a b => by
  unfold dateLe; infer_instance

instance : IsTotal CalDate dateLe := by
  constructor
  intro a b
  unfold dateLe
  omega

instance : IsTrans CalDate dateLe := by
  constructor
  intro a b c
  unfold dateLe
  omega

instance : IsAntisymm CalDate dateLe := by
  constructor
  intro a b h1 h2
  unfold dateLe at h1 h2
  cases a
  cases b
  simp only [CalDate.mk.injEq]
  simp only at h1 h2
  omega

/-- Drug classification attached to each dose event by the external importer
(`DrugClass` in `types/medication.ts`). -/
inductive DrugClass where
  | sleep_aid
  | stimulant
  | beta_blocker
  | antipsychotic
  | anxiolytic
  | antidepressant
  | supplement
  | other
deriving DecidableEq, Repr

/-- The metric keys iterated by the engine (`SLEEP_METRICS` in
`types/oura.ts`), in source order. -/
inductive SleepMetricKey where
  | totalSleepMinutes
  | deepSleepMinutes
  | remSleepMinutes
  | lightSleepMinutes
  | sleepEfficiency
  | latencyMinutes
  | avgHrv
  | avgHeartRate
  | lowestHeartRate
  | restlessPeriods
  | sleepScore
  | deepSleepPercent
  | remSleepPercent
deriving DecidableEq, Repr

/-- The `SLEEP_METRICS` constant: the tracked metric keys in iteration
order. -/
def SLEEP_METRICS : List SleepMetricKey :=
  [.totalSleepMinutes, .deepSleepMinutes, .remSleepMinutes, .lightSleepMinutes,
   .sleepEfficiency, .latencyMinutes, .avgHrv, .avgHeartRate, .lowestHeartRate,
   .restlessPeriods, .sleepScore, .deepSleepPercent, .remSleepPercent]

/-- One parsed dose event (`MedicationEntry`): `date` and `hour` are the
calendar date and local hour of the parsed timestamp (the CSV importer builds
the timestamp from the same date and time strings, so the date of the timestamp
equals the `date` field). The raw display name and the `time` string (used
only for presentation aggregates) are omitted. -/
structure MedicationEntry where
  date : CalDate
  hour : Nat
  normalizedName : String
  drugClass : DrugClass
  quantity : ℚ
  totalMg : ℚ
deriving DecidableEq, Repr

/-- Per-night medication summary (`DailyMedicationSummary`). The source also
buckets the entries into per-class aggregate arrays and per-class mg totals;
those derived presentation fields are not consumed by any verified claim and
are omitted — the `entries` list is what `alignData` consumes downstream. -/
structure DailyMedicationSummary where
  date : CalDate
  entries : List MedicationEntry
deriving DecidableEq, Repr

/-- JavaScript `Map.set`: update the value at the first occurrence of the
key, else append a new binding at the end (insertion order preserved). -/
def mapSet {κ ν : Type} [DecidableEq κ] : List (κ × ν) → κ → ν → List (κ × ν)
  | [], k, v => [(k, v)]
  | (k', v') :: rest, k, v =>
      if k' = k then (k', v) :: rest else (k', v') :: mapSet rest k v

/-- JavaScript `Map.get`: the value at the first occurrence of the key. -/
def mapGet {κ ν : Type} [DecidableEq κ] : List (κ × ν) → κ → Option ν
  | [], _ => none
  | (k', v') :: rest, k => if k' = k then some v' else mapGet rest k

theorem mapGet_mapSet_self {κ ν : Type} [DecidableEq κ]
    (m : List (κ × ν)) (k : κ) (v : ν) : mapGet (mapSet m k v) k = some v := by
  induction m with
  | nil => simp [mapSet, mapGet]
  | cons hd tl ih =>
      obtain ⟨k', v'⟩ := hd
      by_cases h : k' = k
      · simp [mapSet, mapGet, h]
      · simp [mapSet, mapGet, h, ih]

theorem mapGet_mapSet_ne {κ ν : Type} [DecidableEq κ]
    (m : List (κ × ν)) {k k' : κ} (v : ν) (h : k' ≠ k) :
    mapGet (mapSet m k v) k' = mapGet m k' := by
  induction m with
  | nil => simp [mapSet, mapGet, Ne.symm h]
  | cons hd tl ih =>
      obtain ⟨k0, v0⟩ := hd
      by_cases h0 : k0 = k
      · subst h0
        simp [mapSet, mapGet, Ne.symm h]
      · simp only [mapSet, if_neg h0]
        by_cases h1 : k0 = k'
        · simp [mapGet, h1]
        · simp [mapGet, h1, ih]

theorem mapGet_eq_none_iff {κ ν : Type} [DecidableEq κ]
    (m : List (κ × ν)) (k : κ) :
    mapGet m k = none ↔ k ∉ m.map Prod.fst := by
  induction m with
  | nil => simp [mapGet]
  | cons hd tl ih =>
      obtain ⟨k0, v0⟩ := hd
      by_cases h : k0 = k
      · subst h
        simp [mapGet]
      · have hne : ¬ k = k0 := fun hh => h hh.symm
        simp only [mapGet, if_neg h, ih, List.map_cons, List.mem_cons, not_or]
        tauto

theorem mapGet_isSome_iff_mem {κ ν : Type} [DecidableEq κ]
    (m : List (κ × ν)) (k : κ) :
    (mapGet m k).isSome = true ↔ k ∈ m.map Prod.fst := by
  rcases h : mapGet m k with _ | v
  · rw [mapGet_eq_none_iff] at h
    simp [h]
  · have : mapGet m k ≠ none := by simp [h]
    rw [ne_eq, mapGet_eq_none_iff, not_not] at this
    simp [this]

/-- Night attribution of a single dose event, lifted from the loop body of
`groupMedicationsBySleepNight`: before 06:00 the dose belongs to the previous
calendar date; between 06:00 and 18:00 a non-stimulant dose is discarded;
otherwise the dose belongs to its own date. -/
def sleepNightFor (e : MedicationEntry) : Option CalDate :=
  if e.hour < 6 then some (prevDate e.date)
  else if e.hour < 18 ∧ e.drugClass ≠ DrugClass.stimulant then none
  else some e.date

/-- Fold step of `groupMedicationsBySleepNight`: drop the event or push it
onto the summary of its attributed night (creating the summary first when the
date is not yet a key, exactly as the source does with `has`/`set`/`get`). -/
def groupStep (m : List (CalDate × DailyMedicationSummary)) (e : MedicationEntry) :
    List (CalDate × DailyMedicationSummary) :=
  match sleepNightFor e with
  | none => m
  | some d =>
      mapSet m d ⟨d, ((mapGet m d).getD ⟨d, []⟩).entries ++ [e]⟩

/-- Group dose events by the sleep night they affect
(`groupMedicationsBySleepNight`). The source signature also receives
window-hour parameters and an optional bedtime map that its body never
consults (the fixed 6h/18h cutoffs are hard-coded); those dead parameters are
dropped here. The second pass of the source, which fills the per-class totals
of each summary, concerns only the omitted presentation fields. -/
def groupMedicationsBySleepNight (entries : List MedicationEntry) :
    List (CalDate × DailyMedicationSummary) :=
  entries.foldl groupStep []

/-- Entries recorded under a given night key (empty when the key is absent). -/
def entriesAt (m : List (CalDate × DailyMedicationSummary)) (d : CalDate) :
    List MedicationEntry :=
  ((mapGet m d).getD ⟨d, []⟩).entries

theorem entriesAt_groupStep (m : List (CalDate × DailyMedicationSummary))
    (e : MedicationEntry) (d : CalDate) :
    entriesAt (groupStep m e) d =
      if sleepNightFor e = some d then entriesAt m d ++ [e] else entriesAt m d := by
  unfold groupStep
  rcases h : sleepNightFor e with _ | d0
  · simp [h]
  · by_cases hd : d0 = d
    · subst hd
      simp [entriesAt, mapGet_mapSet_self, h]
    · have hne : d ≠ d0 := fun hh => hd hh.symm
      have h2 : ¬ sleepNightFor e = some d := by rw [h]; simp [hd]
      simp [entriesAt, h2, hd, mapGet_mapSet_ne m _ hne]

theorem mem_entriesAt_foldl (es : List MedicationEntry)
    (m : List (CalDate × DailyMedicationSummary)) (e : MedicationEntry) (d : CalDate) :
    e ∈ entriesAt (es.foldl groupStep m) d ↔
      e ∈ entriesAt m d ∨ (e ∈ es ∧ sleepNightFor e = some d) := by
  induction es generalizing m with
  | nil => simp
  | cons e' rest ih =>
      simp only [List.foldl_cons, ih, entriesAt_groupStep, List.mem_cons]
      by_cases h : sleepNightFor e' = some d
      · simp only [if_pos h, List.mem_append, List.mem_cons, List.not_mem_nil,
          or_false]
        constructor
        · rintro ((hm | rfl) | hr)
          · exact Or.inl hm
          · exact Or.inr ⟨Or.inl rfl, h⟩
          · exact Or.inr ⟨Or.inr hr.1, hr.2⟩
        · rintro (hm | ⟨rfl | hr, ha⟩)
          · exact Or.inl (Or.inl hm)
          · exact Or.inl (Or.inr rfl)
          · exact Or.inr ⟨hr, ha⟩
      · simp only [if_neg h]
        constructor
        · rintro (hm | hr)
          · exact Or.inl hm
          · exact Or.inr ⟨Or.inr hr.1, hr.2⟩
        · rintro (hm | ⟨rfl | hr, ha⟩)
          · exact Or.inl hm
          · exact absurd ha h
          · exact Or.inr ⟨hr, ha⟩

/-- Characterisation of the grouping: an event is recorded under a night key
iff it occurs in the input and the attribution rule sends it there. -/
theorem mem_entriesAt_group (es : List MedicationEntry) (e : MedicationEntry)
    (d : CalDate) :
    e ∈ entriesAt (groupMedicationsBySleepNight es) d ↔
      e ∈ es ∧ sleepNightFor e = some d := by
  unfold groupMedicationsBySleepNight
  rw [mem_entriesAt_foldl]
  simp [entriesAt, mapGet]

/-- C1: every dose event handed to `groupMedicationsBySleepNight` is
attributed according to the fixed day-boundary rule — an event with local
hour below 6 is accumulated into the summary keyed by the previous calendar
date; an event with hour in [6, 18) whose drug class is not stimulant appears
in no summary at all; every other event is accumulated into the summary keyed
by its own date. -/
theorem groupMedicationsBySleepNight_attribution
    (es : List MedicationEntry) (e : MedicationEntry) (he : e ∈ es) :
    (e.hour < 6 →
      e ∈ entriesAt (groupMedicationsBySleepNight es) (prevDate e.date)) ∧
    (6 ≤ e.hour → e.hour < 18 → e.drugClass ≠ DrugClass.stimulant →
      ∀ d, e ∉ entriesAt (groupMedicationsBySleepNight es) d) ∧
    (6 ≤ e.hour → (18 ≤ e.hour ∨ e.drugClass = DrugClass.stimulant) →
      e ∈ entriesAt (groupMedicationsBySleepNight es) e.date) := by
  refine ⟨fun h6 => ?_, fun h6 h18 hcl d hmem => ?_, fun h6 hrest => ?_⟩
  · rw [mem_entriesAt_group]
    exact ⟨he, by simp [sleepNightFor, h6]⟩
  · rw [mem_entriesAt_group] at hmem
    have : sleepNightFor e = none := by
      simp [sleepNightFor, Nat.not_lt.mpr h6, Nat.lt_of_lt_of_le, h18, hcl]
    rw [this] at hmem
    exact Option.noConfusion hmem.2
  · rw [mem_entriesAt_group]
    refine ⟨he, ?_⟩
    have hn6 : ¬ e.hour < 6 := Nat.not_lt.mpr h6
    rcases hrest with h18 | hst
    · simp [sleepNightFor, hn6, Nat.not_lt.mpr h18]
    · simp [sleepNightFor, hn6, hst]

/-- Witness for C1 at the concrete examples of the spec: a 01:30 dose on
2024-03-10 lands in the 2024-03-09 summary, a non-stimulant 10:00 dose on
2024-03-10 is dropped (in particular it is not in the 2024-03-10 summary),
and a stimulant 10:00 dose lands in the 2024-03-10 summary. -/
theorem groupMedicationsBySleepNight_attribution_witness :
    (⟨⟨2024, 3, 10⟩, 1, "mirtazapine", DrugClass.sleep_aid, 1, 15⟩ : MedicationEntry) ∈
      entriesAt (groupMedicationsBySleepNight
        [⟨⟨2024, 3, 10⟩, 1, "mirtazapine", DrugClass.sleep_aid, 1, 15⟩,
         ⟨⟨2024, 3, 10⟩, 10, "ibuprofen", DrugClass.other, 1, 200⟩,
         ⟨⟨2024, 3, 10⟩, 10, "adderall", DrugClass.stimulant, 1, 10⟩]) ⟨2024, 3, 9⟩ ∧
    (⟨⟨2024, 3, 10⟩, 10, "ibuprofen", DrugClass.other, 1, 200⟩ : MedicationEntry) ∉
      entriesAt (groupMedicationsBySleepNight
        [⟨⟨2024, 3, 10⟩, 1, "mirtazapine", DrugClass.sleep_aid, 1, 15⟩,
         ⟨⟨2024, 3, 10⟩, 10, "ibuprofen", DrugClass.other, 1, 200⟩,
         ⟨⟨2024, 3, 10⟩, 10, "adderall", DrugClass.stimulant, 1, 10⟩]) ⟨2024, 3, 10⟩ ∧
    (⟨⟨2024, 3, 10⟩, 10, "adderall", DrugClass.stimulant, 1, 10⟩ : MedicationEntry) ∈
      entriesAt (groupMedicationsBySleepNight
        [⟨⟨2024, 3, 10⟩, 1, "mirtazapine", DrugClass.sleep_aid, 1, 15⟩,
         ⟨⟨2024, 3, 10⟩, 10, "ibuprofen", DrugClass.other, 1, 200⟩,
         ⟨⟨2024, 3, 10⟩, 10, "adderall", DrugClass.stimulant, 1, 10⟩]) ⟨2024, 3, 10⟩ := by
  refine ⟨?_, ?_, ?_⟩
  · have h := groupMedicationsBySleepNight_attribution
      [⟨⟨2024, 3, 10⟩, 1, "mirtazapine", DrugClass.sleep_aid, 1, 15⟩,
       ⟨⟨2024, 3, 10⟩, 10, "ibuprofen", DrugClass.other, 1, 200⟩,
       ⟨⟨2024, 3, 10⟩, 10, "adderall", DrugClass.stimulant, 1, 10⟩]
      ⟨⟨2024, 3, 10⟩, 1, "mirtazapine", DrugClass.sleep_aid, 1, 15⟩ (by decide)
    have h9 : prevDate ⟨2024, 3, 10⟩ = ⟨2024, 3, 9⟩ := by decide
    exact h9 ▸ h.1 (by decide)
  · have h := groupMedicationsBySleepNight_attribution
      [⟨⟨2024, 3, 10⟩, 1, "mirtazapine", DrugClass.sleep_aid, 1, 15⟩,
       ⟨⟨2024, 3, 10⟩, 10, "ibuprofen", DrugClass.other, 1, 200⟩,
       ⟨⟨2024, 3, 10⟩, 10, "adderall", DrugClass.stimulant, 1, 10⟩]
      ⟨⟨2024, 3, 10⟩, 10, "ibuprofen", DrugClass.other, 1, 200⟩ (by decide)
    exact h.2.1 (by decide) (by decide) (by decide) ⟨2024, 3, 10⟩
  · have h := groupMedicationsBySleepNight_attribution
      [⟨⟨2024, 3, 10⟩, 1, "mirtazapine", DrugClass.sleep_aid, 1, 15⟩,
       ⟨⟨2024, 3, 10⟩, 10, "ibuprofen", DrugClass.other, 1, 200⟩,
       ⟨⟨2024, 3, 10⟩, 10, "adderall", DrugClass.stimulant, 1, 10⟩]
      ⟨⟨2024, 3, 10⟩, 10, "adderall", DrugClass.stimulant, 1, 10⟩ (by decide)
    exact h.2.2 (by decide) (Or.inr rfl)

/-- Nightly sleep-metric record (`ProcessedSleepMetrics`): a date key and a
partial assignment of numeric metric values. A field that is `null` or `NaN`
in the source record is modelled as `none` (exactly the values the
`typeof ... number and not NaN` filter of `alignData` rejects); fields no
claim inspects beyond metric lookup are reached through the same map. -/
structure ProcessedSleepMetrics where
  date : CalDate
  metrics : SleepMetricKey → Option ℚ

/-- Per-medication feature of an aligned point (`taken`, `totalMg`,
`quantity`). -/
structure MedFeature where
  taken : Bool
  totalMg : ℚ
  quantity : ℚ
deriving DecidableEq, Repr

/-- One aligned night (`AlignedDataPoint`): joined medication features and
sleep-metric values for a date, plus the raw references the source record
carries (`medicationSummary`, possibly absent, and the sleep record, always
present when a point is built). -/
structure AlignedDataPoint where
  date : CalDate
  medications : List (String × MedFeature)
  sleepMetrics : List (SleepMetricKey × ℚ)
  medicationSummary : Option DailyMedicationSummary
  sleepSession : ProcessedSleepMetrics

/-- The medication-feature map of one aligned point: fold the entries of the
summary, merging repeated medication names by summing mg and quantity
(`taken` is true for every recorded medication). An absent summary yields the
empty map. -/
def buildMedications : Option DailyMedicationSummary → List (String × MedFeature)
  | none => []
  | some s =>
      s.entries.foldl (fun m e =>
        match mapGet m e.normalizedName with
        | some f =>
            mapSet m e.normalizedName ⟨true, f.totalMg + e.totalMg, f.quantity + e.quantity⟩
        | none => mapSet m e.normalizedName ⟨true, e.totalMg, e.quantity⟩) []

/-- The by-date index of sleep records built at the top of `alignData`
(`Map.set` semantics: a repeated date keeps the last record). -/
def sleepByDate (sl : List ProcessedSleepMetrics) : List (CalDate × ProcessedSleepMetrics) :=
  sl.foldl (fun m s => mapSet m s.date s) []

/-- The deduplicated union of medication dates and sleep dates iterated by
`alignData` (the JavaScript `Set`; its first-occurrence order is immaterial
because `alignData` sorts it by the total order `dateLe`). -/
def allAlignDates (ms : List (CalDate × DailyMedicationSummary))
    (sl : List ProcessedSleepMetrics) : List CalDate :=
  ((ms.map Prod.fst) ++ ((sleepByDate sl).map Prod.fst)).dedup

/-- Body of the per-date loop of `alignData`: skip dates without sleep data,
otherwise build the aligned point. -/
def alignPoint (ms : List (CalDate × DailyMedicationSummary))
    (sl : List ProcessedSleepMetrics) (date : CalDate) : Option AlignedDataPoint :=
  match mapGet (sleepByDate sl) date with
  | none => none
  | some sleep =>
      some { date := date
             medications := buildMedications (mapGet ms date)
             sleepMetrics :=
               SLEEP_METRICS.filterMap (fun k => (sleep.metrics k).map (fun v => (k, v)))
             medicationSummary := mapGet ms date
             sleepSession := sleep }

/-- Align medication summaries with sleep records by date (`alignData`): one
point per date of the sorted date union that carries sleep data. The JS
engine sorts the ISO date strings; on the deduplicated keys this is exactly
the `dateLe` sort. -/
def alignData (ms : List (CalDate × DailyMedicationSummary))
    (sl : List ProcessedSleepMetrics) : List AlignedDataPoint :=
  ((allAlignDates ms sl).insertionSort dateLe).filterMap (alignPoint ms sl)

theorem mem_keys_mapSet {κ ν : Type} [DecidableEq κ]
    (m : List (κ × ν)) (k d : κ) (v : ν) :
    d ∈ (mapSet m k v).map Prod.fst ↔ d = k ∨ d ∈ m.map Prod.fst := by
  induction m with
  | nil => simp [mapSet]
  | cons hd tl ih =>
      obtain ⟨k0, v0⟩ := hd
      by_cases h : k0 = k
      · subst h
        have hms : mapSet ((k0, v0) :: tl) k0 v = (k0, v) :: tl := by
          simp [mapSet]
        rw [hms]
        simp only [List.map_cons, List.mem_cons]
        tauto
      · have hms : mapSet ((k0, v0) :: tl) k v = (k0, v0) :: mapSet tl k v := by
          simp [mapSet, h]
        rw [hms]
        simp only [List.map_cons, List.mem_cons, ih]
        tauto

theorem mem_keys_sleepByDate_aux (sl : List ProcessedSleepMetrics)
    (m : List (CalDate × ProcessedSleepMetrics)) (d : CalDate) :
    d ∈ ((sl.foldl (fun m s => mapSet m s.date s) m).map Prod.fst) ↔
      d ∈ m.map Prod.fst ∨ d ∈ sl.map (fun s => s.date) := by
  induction sl generalizing m with
  | nil => simp
  | cons s rest ih =>
      simp only [List.foldl_cons, ih, mem_keys_mapSet, List.map_cons, List.mem_cons]
      tauto

theorem mem_keys_sleepByDate (sl : List ProcessedSleepMetrics) (d : CalDate) :
    d ∈ (sleepByDate sl).map Prod.fst ↔ d ∈ sl.map (fun s => s.date) := by
  unfold sleepByDate
  rw [mem_keys_sleepByDate_aux]
  simp

theorem isSome_mapGet_sleepByDate (sl : List ProcessedSleepMetrics) (d : CalDate) :
    (mapGet (sleepByDate sl) d).isSome = true ↔ d ∈ sl.map (fun s => s.date) := by
  rw [mapGet_isSome_iff_mem, mem_keys_sleepByDate]

theorem alignPoint_date (ms : List (CalDate × DailyMedicationSummary))
    (sl : List ProcessedSleepMetrics) (d : CalDate) (p : AlignedDataPoint)
    (h : alignPoint ms sl d = some p) : p.date = d := by
  unfold alignPoint at h
  rcases hq : mapGet (sleepByDate sl) d with _ | sleep
  · rw [hq] at h
    exact Option.noConfusion h
  · rw [hq] at h
    cases h
    rfl

theorem map_date_filterMap_alignPoint (ms : List (CalDate × DailyMedicationSummary))
    (sl : List ProcessedSleepMetrics) (l : List CalDate) :
    ((l.filterMap (alignPoint ms sl)).map (fun p => p.date)) =
      l.filter (fun d => (mapGet (sleepByDate sl) d).isSome) := by
  induction l with
  | nil => simp
  | cons d rest ih =>
      rcases hq : mapGet (sleepByDate sl) d with _ | sleep
      · simp [alignPoint, hq, ih]
      · simp [alignPoint, hq, ih]

theorem nodup_sorted_allAlignDates (ms : List (CalDate × DailyMedicationSummary))
    (sl : List ProcessedSleepMetrics) :
    ((allAlignDates ms sl).insertionSort dateLe).Nodup :=
  (List.perm_insertionSort dateLe (allAlignDates ms sl)).nodup_iff.mpr
    (List.nodup_dedup _)

theorem countP_eq_count_date (L : List CalDate) (d : CalDate) :
    L.countP (fun x => decide (x = d)) = L.count d := by
  unfold List.count
  refine List.countP_congr fun x _ => ?_
  simp [beq_iff_eq]

theorem alignData_countP (ms : List (CalDate × DailyMedicationSummary))
    (sl : List ProcessedSleepMetrics) (d : CalDate) :
    (alignData ms sl).countP (fun p => decide (p.date = d)) =
      if d ∈ sl.map (fun s => s.date) then 1 else 0 := by
  have hmap : (alignData ms sl).countP (fun p => decide (p.date = d)) =
      (((allAlignDates ms sl).insertionSort dateLe).filter
        (fun x => (mapGet (sleepByDate sl) x).isSome)).countP (fun x => decide (x = d)) := by
    unfold alignData
    rw [← map_date_filterMap_alignPoint ms sl, List.countP_map]
    rfl
  rw [hmap, countP_eq_count_date]
  by_cases hd : d ∈ sl.map (fun s => s.date)
  · rw [if_pos hd]
    have hq : (mapGet (sleepByDate sl) d).isSome = true :=
      (isSome_mapGet_sleepByDate sl d).mpr hd
    have hmem : d ∈ (allAlignDates ms sl).insertionSort dateLe := by
      rw [List.mem_insertionSort]
      unfold allAlignDates
      rw [List.mem_dedup, List.mem_append]
      exact Or.inr ((mem_keys_sleepByDate sl d).mpr hd)
    exact List.count_eq_one_of_mem
      (List.Nodup.filter _ (nodup_sorted_allAlignDates ms sl))
      (List.mem_filter.mpr ⟨hmem, hq⟩)
  · rw [if_neg hd]
    rw [List.count_eq_zero]
    intro hmem
    rcases List.mem_filter.mp hmem with ⟨_, hq⟩
    exact hd ((isSome_mapGet_sleepByDate sl d).mp (by simpa using hq))

theorem alignData_medications_empty (ms : List (CalDate × DailyMedicationSummary))
    (sl : List ProcessedSleepMetrics) (p : AlignedDataPoint)
    (hp : p ∈ alignData ms sl) (hnone : mapGet ms p.date = none) :
    p.medications = [] := by
  unfold alignData at hp
  rcases List.mem_filterMap.mp hp with ⟨d, _, hd⟩
  have hdate := alignPoint_date ms sl d p hd
  unfold alignPoint at hd
  rcases hq : mapGet (sleepByDate sl) d with _ | sleep
  · rw [hq] at hd
    exact Option.noConfusion hd
  · rw [hq] at hd
    cases hd
    rw [hdate] at hnone
    simp [hnone, buildMedications]

theorem alignData_sorted (ms : List (CalDate × DailyMedicationSummary))
    (sl : List ProcessedSleepMetrics) :
    (alignData ms sl).Pairwise (fun p q => dateLe p.date q.date) := by
  unfold alignData
  rw [List.pairwise_filterMap]
  refine (List.sorted_insertionSort dateLe (allAlignDates ms sl)).imp_of_mem ?_
  intro a b _ _ hab
  intro x hx y hy
  rw [alignPoint_date ms sl a x hx, alignPoint_date ms sl b y hy]
  exact hab

theorem date_mem_of_mem_alignData (ms : List (CalDate × DailyMedicationSummary))
    (sl : List ProcessedSleepMetrics) (p : AlignedDataPoint)
    (hp : p ∈ alignData ms sl) : p.date ∈ sl.map (fun s => s.date) := by
  unfold alignData at hp
  rcases List.mem_filterMap.mp hp with ⟨d, _, hd⟩
  have hdate := alignPoint_date ms sl d p hd
  unfold alignPoint at hd
  rcases hq : mapGet (sleepByDate sl) d with _ | sleep
  · rw [hq] at hd
    exact Option.noConfusion hd
  · rw [hdate]
    refine (isSome_mapGet_sleepByDate sl d).mp ?_
    rw [hq]
    rfl

/-- C2: `alignData` emits exactly one point per date occurring in the sleep
records and none for any other date; a point whose date has no medication
summary carries an empty medications map; and the output is sorted ascending
by date. -/
theorem alignData_spec (ms : List (CalDate × DailyMedicationSummary))
    (sl : List ProcessedSleepMetrics) :
    (∀ d : CalDate, (alignData ms sl).countP (fun p => decide (p.date = d)) =
        if d ∈ sl.map (fun s => s.date) then 1 else 0) ∧
    (∀ p ∈ alignData ms sl, mapGet ms p.date = none → p.medications = []) ∧
    ((alignData ms sl).Pairwise (fun p q => dateLe p.date q.date)) :=
  ⟨alignData_countP ms sl,
   fun p hp => alignData_medications_empty ms sl p hp,
   alignData_sorted ms sl⟩

/-- Witness for C2 at a concrete input: a single sleep record and no
medication summaries yield exactly one point for its date, and that point has
an empty medications map (vacuously checkable via the count). -/
theorem alignData_spec_witness :
    (alignData [] [⟨⟨2024, 1, 1⟩, fun _ => none⟩]).countP
        (fun p => decide (p.date = ⟨2024, 1, 1⟩)) = 1 := by
  have h := (alignData_spec [] [⟨⟨2024, 1, 1⟩, fun _ => none⟩]).1 ⟨2024, 1, 1⟩
  simpa using h

/-- Counterexample for C3: with medication summaries for dates A = 2024-01-01
and B = 2024-01-02 and sleep records for B and C = 2024-01-03, `alignData`
returns two points (for B and for C), not exactly one point for B as the
claim states. -/
theorem alignData_two_dates_counterexample :
    ((alignData
        [(⟨2024, 1, 1⟩, ⟨⟨2024, 1, 1⟩, []⟩), (⟨2024, 1, 2⟩, ⟨⟨2024, 1, 2⟩, []⟩)]
        [⟨⟨2024, 1, 2⟩, fun _ => none⟩, ⟨⟨2024, 1, 3⟩, fun _ => none⟩]).map
          (fun p => p.date)) = [⟨2024, 1, 2⟩, ⟨2024, 1, 3⟩] ∧
    (alignData
        [(⟨2024, 1, 1⟩, ⟨⟨2024, 1, 1⟩, []⟩), (⟨2024, 1, 2⟩, ⟨⟨2024, 1, 2⟩, []⟩)]
        [⟨⟨2024, 1, 2⟩, fun _ => none⟩, ⟨⟨2024, 1, 3⟩, fun _ => none⟩]).length ≠ 1 := by
  constructor
  · rfl
  · decide

/-- C3 as amended: with medication data for dates A and B and sleep data for
dates B and C (all distinct), `alignData` yields exactly two points, one for
B and one for C. -/
theorem alignData_two_dates_amended (A B C : CalDate)
    (sA sB : DailyMedicationSummary) (mB mC : ProcessedSleepMetrics)
    (hAB : A ≠ B) (hAC : A ≠ C) (hBC : B ≠ C)
    (hmB : mB.date = B) (hmC : mC.date = C) :
    (alignData [(A, sA), (B, sB)] [mB, mC]).countP
        (fun p => decide (p.date = B)) = 1 ∧
    (alignData [(A, sA), (B, sB)] [mB, mC]).countP
        (fun p => decide (p.date = C)) = 1 ∧
    (alignData [(A, sA), (B, sB)] [mB, mC]).length = 2 := by
  have hdates : ([mB, mC].map (fun s => s.date)) = [B, C] := by
    simp [hmB, hmC]
  have hB : (alignData [(A, sA), (B, sB)] [mB, mC]).countP
      (fun p => decide (p.date = B)) = 1 := by
    rw [alignData_countP, hdates, if_pos (by simp)]
  have hC : (alignData [(A, sA), (B, sB)] [mB, mC]).countP
      (fun p => decide (p.date = C)) = 1 := by
    rw [alignData_countP, hdates, if_pos (by simp)]
  refine ⟨hB, hC, ?_⟩
  have hlen := List.length_eq_countP_add_countP
    (fun p : AlignedDataPoint => decide (p.date = B))
    (alignData [(A, sA), (B, sB)] [mB, mC])
  have hcongr : (alignData [(A, sA), (B, sB)] [mB, mC]).countP
      (fun p => decide ¬ (decide (p.date = B) = true)) =
      (alignData [(A, sA), (B, sB)] [mB, mC]).countP
        (fun p => decide (p.date = C)) := by
    refine List.countP_congr fun p hp => ?_
    have hd := date_mem_of_mem_alignData _ _ p hp
    rw [hdates] at hd
    simp only [List.mem_cons, List.not_mem_nil, or_false] at hd
    rcases hd with hd | hd <;> simp [hd, hBC, Ne.symm hBC]
  rw [hlen, hcongr, hB, hC]

/-- Witness for the amended C3 at concrete dates and records. -/
theorem alignData_two_dates_amended_witness :
    (alignData
        [(⟨2024, 1, 1⟩, ⟨⟨2024, 1, 1⟩, []⟩), (⟨2024, 1, 2⟩, ⟨⟨2024, 1, 2⟩, []⟩)]
        [⟨⟨2024, 1, 2⟩, fun _ => none⟩, ⟨⟨2024, 1, 3⟩, fun _ => none⟩]).countP
        (fun p => decide (p.date = ⟨2024, 1, 2⟩)) = 1 ∧
    (alignData
        [(⟨2024, 1, 1⟩, ⟨⟨2024, 1, 1⟩, []⟩), (⟨2024, 1, 2⟩, ⟨⟨2024, 1, 2⟩, []⟩)]
        [⟨⟨2024, 1, 2⟩, fun _ => none⟩, ⟨⟨2024, 1, 3⟩, fun _ => none⟩]).countP
        (fun p => decide (p.date = ⟨2024, 1, 3⟩)) = 1 ∧
    (alignData
        [(⟨2024, 1, 1⟩, ⟨⟨2024, 1, 1⟩, []⟩), (⟨2024, 1, 2⟩, ⟨⟨2024, 1, 2⟩, []⟩)]
        [⟨⟨2024, 1, 2⟩, fun _ => none⟩, ⟨⟨2024, 1, 3⟩, fun _ => none⟩]).length = 2 :=
  alignData_two_dates_amended ⟨2024, 1, 1⟩ ⟨2024, 1, 2⟩ ⟨2024, 1, 3⟩
    ⟨⟨2024, 1, 1⟩, []⟩ ⟨⟨2024, 1, 2⟩, []⟩ _ _
    (by decide) (by decide) (by decide) rfl rfl

open scoped Classical

/-- Arithmetic mean (`ss.mean`); behind the source guards it is never applied
to an empty list, and the total real division makes it 0 there. -/
noncomputable def mean (l : List ℝ) : ℝ := l.sum / l.length

/-- Population variance (`ss.variance`), the variance the source feeds into
the pooled variance of `cohensD`. -/
noncomputable def variancePop (l : List ℝ) : ℝ :=
  ((l.map (fun x => (x - mean l) ^ 2)).sum) / l.length

/-- Sample variance (`ss.sampleVariance`), used through the sample standard
deviation inside `ss.sampleCorrelation`. -/
noncomputable def sampleVariance (l : List ℝ) : ℝ :=
  ((l.map (fun x => (x - mean l) ^ 2)).sum) / ((l.length : ℝ) - 1)

/-- Sample standard deviation (`ss.sampleStandardDeviation`). -/
noncomputable def sampleStandardDeviation (l : List ℝ) : ℝ :=
  Real.sqrt (sampleVariance l)

/-- Sample covariance (`ss.sampleCovariance`); the index-paired sum of the
source is the sum over the zipped lists. -/
noncomputable def sampleCovariance (x y : List ℝ) : ℝ :=
  ((x.zip y).map (fun p => (p.1 - mean x) * (p.2 - mean y))).sum / ((x.length : ℝ) - 1)

/-- Sample Pearson correlation (`ss.sampleCorrelation`): covariance divided
by both standard deviations. When a list has zero variance, the covariance
and that standard deviation are both exactly 0 and the source computes 0/0,
an IEEE NaN — the library throws only on length violations, which the
callers already guard, so the `try`/`catch` around it is dead code. This
real-valued version collapses the non-finite result to 0 through total
division; `sampleCorrelationJs` below tracks it faithfully, and the claims
that turn on that case are stated against it. -/
noncomputable def sampleCorrelation (x y : List ℝ) : ℝ :=
  sampleCovariance x y / sampleStandardDeviation x / sampleStandardDeviation y

/-- Pearson correlation with the source guards: 0 for mismatched lengths or
fewer than 3 points. On zero-variance inputs the source returns NaN (see
`sampleCorrelation` and `pearsonCorrelationJs`); this version is used where
no such input arises or where the value is immaterial. -/
noncomputable def pearsonCorrelation (x y : List ℝ) : ℝ :=
  if x.length ≠ y.length ∨ x.length < 3 then 0 else sampleCorrelation x y

/-- JavaScript division with the non-finite outcome made explicit: dividing
by zero never yields a finite number (NaN for a zero numerator, a signed
infinity otherwise), and any operation on a non-finite operand stays
non-finite. `none` stands for the non-finite result; in every path traced in
this development the numerator is exactly 0 whenever the denominator is, so
`none` always denotes NaN there. -/
noncomputable def jsdiv : Option ℝ → Option ℝ → Option ℝ
  | some a, some b => if b = 0 then none else some (a / b)
  | _, _ => none

/-- IEEE-faithful refinement of `sampleCorrelation`: the same two divisions,
with the non-finite outcome of dividing by a zero standard deviation
tracked as `none`. -/
noncomputable def sampleCorrelationJs (x y : List ℝ) : Option ℝ :=
  jsdiv (jsdiv (some (sampleCovariance x y)) (some (sampleStandardDeviation x)))
    (some (sampleStandardDeviation y))

/-- IEEE-faithful refinement of `pearsonCorrelation`: the source guards, then
the library call. The `catch` of the source never fires behind these guards
(the library throws only for mismatched lengths or fewer than two points),
so the NaN of a zero-variance list propagates to the caller. -/
noncomputable def pearsonCorrelationJs (x y : List ℝ) : Option ℝ :=
  if x.length ≠ y.length ∨ x.length < 3 then some 0 else sampleCorrelationJs x y

/-- Tie-averaged 1-based ranks, closed form of the sort-and-average loop of
`toRanks` in the source: the rank of a value is the number of strictly
smaller entries plus the average of the 1-based positions its tie run
occupies. -/
noncomputable def toRanks (values : List ℝ) : List ℝ :=
  values.map (fun v =>
    (values.countP (fun w => decide (w < v)) : ℝ) +
      ((values.countP (fun w => decide (w = v)) : ℝ) + 1) / 2)

/-- Spearman rank correlation: Pearson on the ranked sequences, with the same
degenerate guards. -/
noncomputable def spearmanCorrelation (x y : List ℝ) : ℝ :=
  if x.length ≠ y.length ∨ x.length < 3 then 0
  else pearsonCorrelation (toRanks x) (toRanks y)

/-- Normal CDF by the Abramowitz and Stegun rational approximation, as in the
source. -/
noncomputable def normalCDF (x : ℝ) : ℝ :=
  (0.5 : ℝ) * (1 + (if x < 0 then (-1 : ℝ) else 1) *
    (1 - ((((1.061405429 * (1 / (1 + 0.3275911 * (|x| / Real.sqrt 2))) - 1.453152027) *
              (1 / (1 + 0.3275911 * (|x| / Real.sqrt 2))) + 1.421413741) *
              (1 / (1 + 0.3275911 * (|x| / Real.sqrt 2))) - 0.284496736) *
              (1 / (1 + 0.3275911 * (|x| / Real.sqrt 2))) + 0.254829592) *
              (1 / (1 + 0.3275911 * (|x| / Real.sqrt 2))) *
          Real.exp (-(|x| / Real.sqrt 2) * (|x| / Real.sqrt 2))))

/-- Lanczos log-gamma approximation of the source, with the six-term series
loop unrolled. -/
noncomputable def logGamma (x : ℝ) : ℝ :=
  -(x + 5.5 - (x + 0.5) * Real.log (x + 5.5)) +
    Real.log (2.5066282746310005 *
      (1.000000000190015
        + 76.18009172947146 / (x + 1)
        - 86.50532032941677 / (x + 2)
        + 24.01409824083091 / (x + 3)
        - 1.231739572450155 / (x + 4)
        + 0.001208650973866179 / (x + 5)
        - 0.000005395239384953 / (x + 6)) / x)

/-- One-sided clamp used inside the continued-fraction loop: values with
absolute value below the epsilon are replaced by the epsilon. -/
noncomputable def cfClamp (t : ℝ) : ℝ := if |t| < 1e-10 then 1e-10 else t

/-- The Lentz continued-fraction loop of `betaCF`: at most `fuel` further
iterations (the source runs `m` from 1 to 100), carrying the `c`, `d`, `h`
state and stopping early once the per-iteration factor is within the
epsilon of 1. -/
noncomputable def betaCFLoop (a b x : ℝ) : ℕ → ℕ → ℝ → ℝ → ℝ → ℝ
  | 0, _, _, _, h => h
  | fuel + 1, m, c, d, h =>
      let mr : ℝ := (m : ℝ)
      let aa1 := mr * (b - mr) * x / ((a + 2 * mr - 1) * (a + 2 * mr))
      let d1 := 1 / cfClamp (1 + aa1 * d)
      let c1 := cfClamp (1 + aa1 / c)
      let h1 := h * d1 * c1
      let aa2 := -((a + mr) * (a + b + mr)) * x / ((a + 2 * mr) * (a + 2 * mr + 1))
      let d2 := 1 / cfClamp (1 + aa2 * d1)
      let c2 := cfClamp (1 + aa2 / c1)
      let h2 := h1 * (d2 * c2)
      if |d2 * c2 - 1| < 1e-10 then h2 else betaCFLoop a b x fuel (m + 1) c2 d2 h2

/-- Continued-fraction evaluation of the incomplete beta function
(`betaCF`). -/
noncomputable def betaCF (a b x : ℝ) : ℝ :=
  betaCFLoop a b x 100 1 1
    (1 / cfClamp (1 - (a + b) * x / (a + 1)))
    (1 / cfClamp (1 - (a + b) * x / (a + 1)))

/-- Regularized incomplete beta function of the source, with the exact
endpoint guards and the symmetry split on `x` against `(a+1)/(a+b+2)`. -/
noncomputable def incompleteBeta (a b x : ℝ) : ℝ :=
  if x = 0 then 0
  else if x = 1 then 1
  else
    if x < (a + 1) / (a + b + 2) then
      Real.exp (logGamma (a + b) - logGamma a - logGamma b +
        a * Real.log x + b * Real.log (1 - x)) * betaCF a b x / a
    else
      1 - Real.exp (logGamma (a + b) - logGamma a - logGamma b +
        a * Real.log x + b * Real.log (1 - x)) * betaCF b a (1 - x) / b

/-- CDF of the t distribution: normal approximation above 100 degrees of
freedom, incomplete beta otherwise. -/
noncomputable def tDistributionCDF (t df : ℝ) : ℝ :=
  if 100 < df then normalCDF t
  else 1 - 0.5 * incompleteBeta (df / 2) 0.5 (df / (df + t * t))

/-- Two-tailed p-value of a correlation coefficient (`correlationPValue`):
1 for degenerate inputs, else via the t statistic. -/
noncomputable def correlationPValue (r : ℝ) (n : ℕ) : ℝ :=
  if n ≤ 2 ∨ 1 ≤ |r| then 1
  else 2 * (1 - tDistributionCDF |r * Real.sqrt (((n : ℝ) - 2) / (1 - r * r))| ((n : ℝ) - 2))

/-- The Winitzki-style constant of the library inverse error function. -/
noncomputable def invErfA : ℝ := 8 * (Real.pi - 3) / (3 * Real.pi * (4 - Real.pi))

/-- Magnitude of the library inverse error function (the square-root
expression computed before the sign dispatch). -/
noncomputable def invErfMag (x : ℝ) : ℝ :=
  Real.sqrt
    (Real.sqrt ((2 / (Real.pi * invErfA) + Real.log (1 - x * x) / 2) ^ 2 -
        Real.log (1 - x * x) / invErfA) -
      (2 / (Real.pi * invErfA) + Real.log (1 - x * x) / 2))

/-- Library inverse error function (`ss.inverseErrorFunction`): the magnitude
with the sign of the argument. -/
noncomputable def inverseErrorFunction (x : ℝ) : ℝ :=
  if 0 ≤ x then invErfMag x else -invErfMag x

/-- Clamping of the probability argument performed by `ss.probit` with the
library epsilon 0.0001. -/
noncomputable def probitClamp (p : ℝ) : ℝ :=
  if 1 ≤ (if p = 0 then 0.0001 else p) then 1 - 0.0001
  else (if p = 0 then 0.0001 else p)

/-- Library probit (`ss.probit`): scaled inverse error function of the
clamped argument. -/
noncomputable def probit (p : ℝ) : ℝ :=
  Real.sqrt 2 * inverseErrorFunction (2 * probitClamp p - 1)

/-- Fisher-transform confidence interval for a correlation
(`correlationConfidenceInterval`), returned as (lower, upper). The local
variables of the source are inlined: the bounds are
tanh(atanh r ∓ probit((1+level)/2) / sqrt(n-3)) written with `exp` and `log`
exactly as the source computes them. -/
noncomputable def correlationConfidenceInterval (r : ℝ) (n : ℕ) (level : ℝ) : ℝ × ℝ :=
  if n ≤ 3 then (-1, 1)
  else
    ((Real.exp (2 * (0.5 * Real.log ((1 + r) / (1 - r)) -
          probit ((1 + level) / 2) * (1 / Real.sqrt ((n : ℝ) - 3)))) - 1) /
       (Real.exp (2 * (0.5 * Real.log ((1 + r) / (1 - r)) -
          probit ((1 + level) / 2) * (1 / Real.sqrt ((n : ℝ) - 3)))) + 1),
     (Real.exp (2 * (0.5 * Real.log ((1 + r) / (1 - r)) +
          probit ((1 + level) / 2) * (1 / Real.sqrt ((n : ℝ) - 3)))) - 1) /
       (Real.exp (2 * (0.5 * Real.log ((1 + r) / (1 - r)) +
          probit ((1 + level) / 2) * (1 / Real.sqrt ((n : ℝ) - 3)))) + 1))

/-- Pooled variance computed by `cohensD` from the two population variances.
For two singleton groups the source computes 0/0, an IEEE NaN; this
real-valued version collapses that to 0 through total division, and
`pooledVarianceJs` below tracks it faithfully. -/
noncomputable def pooledVariance (g1 g2 : List ℝ) : ℝ :=
  (((g1.length : ℝ) - 1) * variancePop g1 + ((g2.length : ℝ) - 1) * variancePop g2) /
    ((g1.length : ℝ) + (g2.length : ℝ) - 2)

/-- Cohen effect size (`cohensD`): 0 for an empty group or a zero pooled
standard deviation, else the standardized mean difference. On the
singleton-versus-singleton input the source returns NaN (see `cohensDJs`);
this version collapses that case through `pooledVariance`. -/
noncomputable def cohensD (group1 group2 : List ℝ) : ℝ :=
  if group1.length = 0 ∨ group2.length = 0 then 0
  else if Real.sqrt (pooledVariance group1 group2) = 0 then 0
  else (mean group1 - mean group2) / Real.sqrt (pooledVariance group1 group2)

/-- IEEE-faithful refinement of `pooledVariance`: the same quotient with the
non-finite outcome of the zero denominator (two singleton groups, where the
weighted variance sum is also 0, hence 0/0 = NaN) tracked as `none`. -/
noncomputable def pooledVarianceJs (g1 g2 : List ℝ) : Option ℝ :=
  jsdiv
    (some (((g1.length : ℝ) - 1) * variancePop g1 + ((g2.length : ℝ) - 1) * variancePop g2))
    (some ((g1.length : ℝ) + (g2.length : ℝ) - 2))

/-- IEEE-faithful refinement of `cohensD`: when the pooled variance is NaN,
`Math.sqrt` gives NaN, the strict `=== 0` guard of the source does not fire,
and the final division by NaN is NaN — so the `none` of the pooled variance
propagates to the result. On a finite pooled variance the behaviour is the
guarded quotient of the source. -/
noncomputable def cohensDJs (group1 group2 : List ℝ) : Option ℝ :=
  if group1.length = 0 ∨ group2.length = 0 then some 0
  else
    match pooledVarianceJs group1 group2 with
    | none => none
    | some pv =>
        if Real.sqrt pv = 0 then some 0
        else some ((mean group1 - mean group2) / Real.sqrt pv)

/-- Qualitative effect-size classes. -/
inductive EffectSize where
  | negligible
  | small
  | medium
  | large
deriving DecidableEq, Repr

/-- Classification of a Cohen effect size (`interpretCohenD`). -/
noncomputable def interpretCohenD (d : ℝ) : EffectSize :=
  if |d| < 0.2 then .negligible
  else if |d| < 0.5 then .small
  else if |d| < 0.8 then .medium
  else .large

/-- Direction tag of a correlation result. -/
inductive Direction where
  | positive
  | negative
  | none
deriving DecidableEq, Repr

/-- The means-comparison block of a correlation result. -/
structure MeansComparison where
  withMedication : ℝ
  withoutMedication : ℝ
  difference : ℝ
  percentChange : ℝ

/-- The confidence-interval block of a correlation result. -/
structure ConfidenceIntervalRec where
  lower : ℝ
  upper : ℝ
  level : ℝ

/-- One medication-by-metric correlation record (`CorrelationResult`). -/
structure CorrelationResult where
  medication : String
  drugClass : DrugClass
  metric : SleepMetricKey
  pearsonR : ℝ
  spearmanRho : ℝ
  pValue : ℝ
  isSignificant : Bool
  isHighlySignificant : Bool
  cohensD : ℝ
  effectSize : EffectSize
  confidenceInterval : ConfidenceIntervalRec
  sampleSize : ℕ
  medicationNights : ℕ
  noMedicationNights : ℕ
  direction : Direction
  meansComparison : MeansComparison

/-- Metric values on nights with a positive medication value (the first half
of the split loop in `analyzeCorrelation`). -/
noncomputable def withMedValues (medicationValues metricValues : List ℝ) : List ℝ :=
  (medicationValues.zip metricValues).filterMap
    (fun p => if 0 < p.1 then some p.2 else none)

/-- Metric values on nights without medication (the other half of the split
loop). -/
noncomputable def withoutMedValues (medicationValues metricValues : List ℝ) : List ℝ :=
  (medicationValues.zip metricValues).filterMap
    (fun p => if 0 < p.1 then none else some p.2)

/-- The record built by `analyzeCorrelation` once the sample-size guard has
passed. The locals of the source are inlined into each field. -/
noncomputable def analyzeCorrelationRecord (medication : String) (drugClass : DrugClass)
    (metric : SleepMetricKey) (medicationValues metricValues : List ℝ)
    (significanceLevel : ℝ) : CorrelationResult :=
  { medication := medication
    drugClass := drugClass
    metric := metric
    pearsonR := pearsonCorrelation medicationValues metricValues
    spearmanRho := spearmanCorrelation medicationValues metricValues
    pValue := correlationPValue (pearsonCorrelation medicationValues metricValues)
      medicationValues.length
    isSignificant := decide
      (correlationPValue (pearsonCorrelation medicationValues metricValues)
        medicationValues.length < significanceLevel)
    isHighlySignificant := decide
      (correlationPValue (pearsonCorrelation medicationValues metricValues)
        medicationValues.length < 0.01)
    cohensD := cohensD (withMedValues medicationValues metricValues)
      (withoutMedValues medicationValues metricValues)
    effectSize := interpretCohenD (cohensD (withMedValues medicationValues metricValues)
      (withoutMedValues medicationValues metricValues))
    confidenceInterval :=
      ⟨(correlationConfidenceInterval (pearsonCorrelation medicationValues metricValues)
          medicationValues.length 0.95).1,
       (correlationConfidenceInterval (pearsonCorrelation medicationValues metricValues)
          medicationValues.length 0.95).2, 0.95⟩
    sampleSize := medicationValues.length
    medicationNights := (withMedValues medicationValues metricValues).length
    noMedicationNights := (withoutMedValues medicationValues metricValues).length
    direction :=
      if 0.05 < pearsonCorrelation medicationValues metricValues then Direction.positive
      else if pearsonCorrelation medicationValues metricValues < -0.05 then Direction.negative
      else Direction.none
    meansComparison :=
      ⟨(if 0 < (withMedValues medicationValues metricValues).length then
          mean (withMedValues medicationValues metricValues) else 0),
       (if 0 < (withoutMedValues medicationValues metricValues).length then
          mean (withoutMedValues medicationValues metricValues) else 0),
       (if 0 < (withMedValues medicationValues metricValues).length then
          mean (withMedValues medicationValues metricValues) else 0) -
         (if 0 < (withoutMedValues medicationValues metricValues).length then
            mean (withoutMedValues medicationValues metricValues) else 0),
       (if (if 0 < (withoutMedValues medicationValues metricValues).length then
              mean (withoutMedValues medicationValues metricValues) else 0) ≠ 0 then
          ((if 0 < (withMedValues medicationValues metricValues).length then
              mean (withMedValues medicationValues metricValues) else 0) -
            (if 0 < (withoutMedValues medicationValues metricValues).length then
               mean (withoutMedValues medicationValues metricValues) else 0)) /
            (if 0 < (withoutMedValues medicationValues metricValues).length then
               mean (withoutMedValues medicationValues metricValues) else 0) * 100
        else 0)⟩ }

/-- Per-pair correlation analysis (`analyzeCorrelation`): `none` below 10
samples, else the full record. -/
noncomputable def analyzeCorrelation (medication : String) (drugClass : DrugClass)
    (metric : SleepMetricKey) (medicationValues metricValues : List ℝ)
    (significanceLevel : ℝ) : Option CorrelationResult :=
  if medicationValues.length < 10 then none
  else some (analyzeCorrelationRecord medication drugClass metric medicationValues
    metricValues significanceLevel)

theorem sum_nonneg_all_zero (l : List ℝ) (hn : ∀ a ∈ l, 0 ≤ a) (hs : l.sum = 0) :
    ∀ a ∈ l, a = 0 := by
  induction l with
  | nil => simp
  | cons a tl ih =>
      have ha : 0 ≤ a := hn a (List.mem_cons_self a tl)
      have htl : 0 ≤ tl.sum := List.sum_nonneg fun x hx => hn x (List.mem_cons_of_mem a hx)
      rw [List.sum_cons] at hs
      have ha0 : a = 0 := by linarith
      have htl0 : tl.sum = 0 := by linarith
      intro b hb
      rcases List.mem_cons.mp hb with rfl | hb
      · exact ha0
      · exact ih (fun x hx => hn x (List.mem_cons_of_mem a hx)) htl0 b hb

theorem eq_mean_of_sampleVariance_zero (x : List ℝ) (h3 : 3 ≤ x.length)
    (hv : sampleVariance x = 0) : ∀ a ∈ x, a = mean x := by
  have hlen : ((x.length : ℝ) - 1) ≠ 0 := by
    have : (3 : ℝ) ≤ (x.length : ℝ) := by exact_mod_cast h3
    linarith
  have hsum : (x.map (fun a => (a - mean x) ^ 2)).sum = 0 := by
    unfold sampleVariance at hv
    rcases div_eq_zero_iff.mp hv with h | h
    · exact h
    · exact absurd h hlen
  intro a ha
  have hz : (a - mean x) ^ 2 = 0 := by
    refine sum_nonneg_all_zero _ (fun t ht => ?_) hsum _ (List.mem_map_of_mem _ ha)
    rcases List.mem_map.mp ht with ⟨b, _, rfl⟩
    positivity
  have := pow_eq_zero_iff (n := 2) (by norm_num) |>.mp hz
  linarith [sub_eq_zero.mp this]

theorem sampleCovariance_eq_zero_left (x y : List ℝ)
    (hx : ∀ a ∈ x, a = mean x) : sampleCovariance x y = 0 := by
  unfold sampleCovariance
  have : ((x.zip y).map (fun p => (p.1 - mean x) * (p.2 - mean y))).sum = 0 := by
    refine List.sum_eq_zero fun t ht => ?_
    rcases List.mem_map.mp ht with ⟨⟨a, b⟩, hab, rfl⟩
    have := hx a (List.of_mem_zip hab).1
    simp [this]
  rw [this, zero_div]

theorem sampleCovariance_eq_zero_right (x y : List ℝ)
    (hy : ∀ b ∈ y, b = mean y) : sampleCovariance x y = 0 := by
  unfold sampleCovariance
  have : ((x.zip y).map (fun p => (p.1 - mean x) * (p.2 - mean y))).sum = 0 := by
    refine List.sum_eq_zero fun t ht => ?_
    rcases List.mem_map.mp ht with ⟨⟨a, b⟩, hab, rfl⟩
    have := hy b (List.of_mem_zip hab).2
    simp [this]
  rw [this, zero_div]

theorem jsdiv_some_zero (a : ℝ) : jsdiv (some a) (some 0) = none := by
  simp [jsdiv]

theorem jsdiv_none_left (b : Option ℝ) : jsdiv none b = none := by
  cases b <;> rfl

theorem jsdiv_some_some (a b : ℝ) (h : b ≠ 0) :
    jsdiv (some a) (some b) = some (a / b) := by
  simp [jsdiv, h]

/-- C5, behaviour exhibited (code bug): for lists of equal length at least 3
where one list has zero variance, the covariance is exactly 0, a standard
deviation is exactly 0, and the source computes 0/0 — an IEEE NaN that the
dead `try`/`catch` never intercepts. So `pearsonCorrelation` returns a
non-finite value, not the 0 the claim and spec section 7 require. The other
clauses of the claim (length and sample-size guards of the correlation,
empty-group and zero-pooled-SD guards of the effect size, the p-value and
confidence-interval guards) are genuine early returns taken before any
division; only this zero-variance clause diverges. -/
theorem pearsonCorrelation_zero_variance_bug (x y : List ℝ)
    (hlen : x.length = y.length) (h3 : 3 ≤ x.length)
    (hv : sampleVariance x = 0 ∨ sampleVariance y = 0) :
    sampleCovariance x y = 0 ∧ pearsonCorrelationJs x y = Option.none := by
  have hcov : sampleCovariance x y = 0 := by
    rcases hv with hv | hv
    · exact sampleCovariance_eq_zero_left x y
        (eq_mean_of_sampleVariance_zero x h3 hv)
    · exact sampleCovariance_eq_zero_right x y
        (eq_mean_of_sampleVariance_zero y (hlen ▸ h3) hv)
  refine ⟨hcov, ?_⟩
  unfold pearsonCorrelationJs
  rw [if_neg (by push_neg; exact ⟨hlen, by omega⟩)]
  unfold sampleCorrelationJs
  rcases hv with hv | hv
  · have hsd : sampleStandardDeviation x = 0 := by
      unfold sampleStandardDeviation
      rw [hv, Real.sqrt_zero]
    rw [hsd, jsdiv_some_zero, jsdiv_none_left]
  · have hsd : sampleStandardDeviation y = 0 := by
      unfold sampleStandardDeviation
      rw [hv, Real.sqrt_zero]
    rw [hsd]
    rcases hinner : jsdiv (some (sampleCovariance x y))
        (some (sampleStandardDeviation x)) with _ | v
    · exact jsdiv_none_left _
    · exact jsdiv_some_zero v

/-- Witness for the C5 bug evaluation at the failing input: the first list is
constant (zero variance), the lengths agree at 3, the covariance vanishes,
and the faithful model returns the non-finite value. -/
theorem pearsonCorrelation_zero_variance_bug_witness :
    sampleVariance ([1, 1, 1] : List ℝ) = 0 ∧
    sampleCovariance ([1, 1, 1] : List ℝ) [1, 2, 3] = 0 ∧
    pearsonCorrelationJs [1, 1, 1] [1, 2, 3] = Option.none := by
  have hvar : sampleVariance ([1, 1, 1] : List ℝ) = 0 := by
    unfold sampleVariance mean
    norm_num
  have h := pearsonCorrelation_zero_variance_bug [1, 1, 1] [1, 2, 3] rfl
    (by norm_num) (Or.inl hvar)
  exact ⟨hvar, h.1, h.2⟩

/-- C6: every record produced by `analyzeCorrelation` satisfies the stated
invariants — the significance flags mirror the p-value comparisons against
the supplied level and against 0.01, and the direction tag is positive
exactly for a Pearson correlation above 0.05, negative exactly below -0.05,
and none otherwise. -/
theorem analyzeCorrelation_invariants (medication : String) (drugClass : DrugClass)
    (metric : SleepMetricKey) (medicationValues metricValues : List ℝ)
    (significanceLevel : ℝ) (res : CorrelationResult)
    (hres : analyzeCorrelation medication drugClass metric medicationValues
      metricValues significanceLevel = some res) :
    (res.isSignificant = true ↔ res.pValue < significanceLevel) ∧
    (res.isHighlySignificant = true ↔ res.pValue < 0.01) ∧
    (res.direction = Direction.positive ↔ 0.05 < res.pearsonR) ∧
    (res.direction = Direction.negative ↔ res.pearsonR < -0.05) ∧
    (res.direction = Direction.none ↔ ¬ 0.05 < res.pearsonR ∧ ¬ res.pearsonR < -0.05) := by
  unfold analyzeCorrelation at hres
  by_cases hn : medicationValues.length < 10
  · rw [if_pos hn] at hres
    exact Option.noConfusion hres
  · rw [if_neg hn] at hres
    have hrec := Option.some.inj hres
    subst hrec
    refine ⟨?_, ?_, ?_, ?_, ?_⟩
    · simp [analyzeCorrelationRecord]
    · simp [analyzeCorrelationRecord]
    · by_cases h1 : 0.05 < pearsonCorrelation medicationValues metricValues
      · simp [analyzeCorrelationRecord, h1]
      · by_cases h2 : pearsonCorrelation medicationValues metricValues < -0.05
        · simp [analyzeCorrelationRecord, h1, h2]
        · simp [analyzeCorrelationRecord, h1, h2]
    · by_cases h1 : 0.05 < pearsonCorrelation medicationValues metricValues
      · simp [analyzeCorrelationRecord, h1]
        linarith
      · by_cases h2 : pearsonCorrelation medicationValues metricValues < -0.05
        · simp [analyzeCorrelationRecord, h1, h2]
        · simp [analyzeCorrelationRecord, h1, h2]
    · by_cases h1 : 0.05 < pearsonCorrelation medicationValues metricValues
      · simp [analyzeCorrelationRecord, h1]
      · by_cases h2 : pearsonCorrelation medicationValues metricValues < -0.05
        · simp [analyzeCorrelationRecord, h1, h2]
        · simp [analyzeCorrelationRecord, h1, h2]

/-- Witness for C6 on a 10-night input: the record returned for a concrete
pair satisfies the flag and direction invariants. -/
theorem analyzeCorrelation_invariants_witness :
    ((analyzeCorrelationRecord "drugx" DrugClass.other SleepMetricKey.totalSleepMinutes
        [0, 0, 0, 0, 0, 0, 0, 0, 0, 0] [1, 2, 3, 4, 5, 6, 7, 8, 9, 10]
        0.05).isSignificant = true ↔
      (analyzeCorrelationRecord "drugx" DrugClass.other SleepMetricKey.totalSleepMinutes
        [0, 0, 0, 0, 0, 0, 0, 0, 0, 0] [1, 2, 3, 4, 5, 6, 7, 8, 9, 10]
        0.05).pValue < 0.05) ∧
    ((analyzeCorrelationRecord "drugx" DrugClass.other SleepMetricKey.totalSleepMinutes
        [0, 0, 0, 0, 0, 0, 0, 0, 0, 0] [1, 2, 3, 4, 5, 6, 7, 8, 9, 10]
        0.05).direction = Direction.positive ↔
      0.05 < (analyzeCorrelationRecord "drugx" DrugClass.other SleepMetricKey.totalSleepMinutes
        [0, 0, 0, 0, 0, 0, 0, 0, 0, 0] [1, 2, 3, 4, 5, 6, 7, 8, 9, 10]
        0.05).pearsonR) := by
  have h := analyzeCorrelation_invariants "drugx" DrugClass.other
    SleepMetricKey.totalSleepMinutes
    [0, 0, 0, 0, 0, 0, 0, 0, 0, 0] [1, 2, 3, 4, 5, 6, 7, 8, 9, 10] 0.05
    (analyzeCorrelationRecord "drugx" DrugClass.other SleepMetricKey.totalSleepMinutes
      [0, 0, 0, 0, 0, 0, 0, 0, 0, 0] [1, 2, 3, 4, 5, 6, 7, 8, 9, 10] 0.05)
    (by unfold analyzeCorrelation; rw [if_neg (by norm_num)])
  exact ⟨h.1, h.2.2.1⟩

/-- C8, behaviour exhibited (code bug): for any singleton list the
non-empty-group guard passes, the pooled variance is 0/0 — an IEEE NaN — so
the square root is NaN, the strict `=== 0` guard does not fire, and
`cohensD([x], [x])` returns NaN instead of the 0 the claim (and the spec
property, stated for any non-empty list) requires. -/
theorem cohensD_self_singleton_bug (x : ℝ) : cohensDJs [x] [x] = Option.none := by
  unfold cohensDJs
  rw [if_neg (by norm_num)]
  have hpv : pooledVarianceJs [x] [x] = Option.none := by
    unfold pooledVarianceJs
    have hden : (([x].length : ℝ) + ([x].length : ℝ) - 2) = 0 := by
      norm_num
    rw [hden, jsdiv_some_zero]
  rw [hpv]

/-- Supporting fact for C8: on any list with at least two elements the
degenerate quotient does not arise and the source genuinely returns 0 for a
group compared against itself — the claim fails only at singletons. -/
theorem cohensDJs_self_of_two_le (A : List ℝ) (hA : 2 ≤ A.length) :
    cohensDJs A A = some 0 := by
  unfold cohensDJs
  rw [if_neg (by omega)]
  have hden : ((A.length : ℝ) + (A.length : ℝ) - 2) ≠ 0 := by
    have h2 : (2 : ℝ) ≤ (A.length : ℝ) := by exact_mod_cast hA
    intro h
    linarith
  have hpv : pooledVarianceJs A A =
      some ((((A.length : ℝ) - 1) * variancePop A + ((A.length : ℝ) - 1) * variancePop A) /
        ((A.length : ℝ) + (A.length : ℝ) - 2)) := by
    unfold pooledVarianceJs
    rw [jsdiv_some_some _ _ hden]
  rw [hpv]
  by_cases h : Real.sqrt
      ((((A.length : ℝ) - 1) * variancePop A + ((A.length : ℝ) - 1) * variancePop A) /
        ((A.length : ℝ) + (A.length : ℝ) - 2)) = 0
  · exact if_pos h
  · exact (if_neg h).trans (by rw [sub_self, zero_div])

/-- Witness for the supporting C8 fact at a concrete two-element list. -/
theorem cohensDJs_self_of_two_le_witness : cohensDJs [2, 5] [2, 5] = some 0 :=
  cohensDJs_self_of_two_le [2, 5] (by norm_num)

theorem fisherRatio_mono {u v : ℝ} (hu : 0 < u) (huv : u ≤ v) :
    (u - 1) / (u + 1) ≤ (v - 1) / (v + 1) := by
  have hv : 0 < v := lt_of_lt_of_le hu huv
  rw [div_le_div_iff₀ (by linarith) (by linarith)]
  nlinarith

theorem probit_level95_nonneg : 0 ≤ probit ((1 + 0.95) / 2) := by
  unfold probit probitClamp
  rw [if_neg (by norm_num), if_neg (by norm_num)]
  unfold inverseErrorFunction
  rw [if_pos (by norm_num)]
  exact mul_nonneg (Real.sqrt_nonneg 2) (Real.sqrt_nonneg _)

/-- C9: for a correlation strictly inside (-1, 1) and more than 3 samples,
the 95 percent Fisher confidence interval contains the correlation. -/
theorem correlationConfidenceInterval_contains (r : ℝ) (n : ℕ)
    (h1 : -1 < r) (h2 : r < 1) (h3 : 3 < n) :
    (correlationConfidenceInterval r n 0.95).1 ≤ r ∧
      r ≤ (correlationConfidenceInterval r n 0.95).2 := by
  have hn : ¬ n ≤ 3 := by omega
  unfold correlationConfidenceInterval
  rw [if_neg hn]
  have hden : (0 : ℝ) < 1 - r := by linarith
  have hnum : (0 : ℝ) < 1 + r := by linarith
  have hu : (0 : ℝ) < (1 + r) / (1 - r) := div_pos hnum hden
  have hexp : Real.exp (2 * (0.5 * Real.log ((1 + r) / (1 - r)))) = (1 + r) / (1 - r) := by
    have harg : 2 * (0.5 * Real.log ((1 + r) / (1 - r))) = Real.log ((1 + r) / (1 - r)) := by
      ring
    rw [harg, Real.exp_log hu]
  have hfix : (Real.exp (2 * (0.5 * Real.log ((1 + r) / (1 - r)))) - 1) /
      (Real.exp (2 * (0.5 * Real.log ((1 + r) / (1 - r)))) + 1) = r := by
    rw [hexp]
    have hne : (1 : ℝ) - r ≠ 0 := ne_of_gt hden
    have hden2 : (1 + r) / (1 - r) + 1 ≠ 0 := by
      have : (0 : ℝ) < (1 + r) / (1 - r) + 1 := by linarith
      exact ne_of_gt this
    field_simp
    ring
  have hw : 0 ≤ probit ((1 + 0.95) / 2) * (1 / Real.sqrt ((n : ℝ) - 3)) :=
    mul_nonneg probit_level95_nonneg
      (one_div_nonneg.mpr (Real.sqrt_nonneg _))
  constructor
  · calc (Real.exp (2 * (0.5 * Real.log ((1 + r) / (1 - r)) -
          probit ((1 + 0.95) / 2) * (1 / Real.sqrt ((n : ℝ) - 3)))) - 1) /
        (Real.exp (2 * (0.5 * Real.log ((1 + r) / (1 - r)) -
          probit ((1 + 0.95) / 2) * (1 / Real.sqrt ((n : ℝ) - 3)))) + 1)
        ≤ (Real.exp (2 * (0.5 * Real.log ((1 + r) / (1 - r)))) - 1) /
            (Real.exp (2 * (0.5 * Real.log ((1 + r) / (1 - r)))) + 1) := by
          refine fisherRatio_mono (Real.exp_pos _) (Real.exp_le_exp.mpr ?_)
          nlinarith
      _ = r := hfix
  · calc r = (Real.exp (2 * (0.5 * Real.log ((1 + r) / (1 - r)))) - 1) /
        (Real.exp (2 * (0.5 * Real.log ((1 + r) / (1 - r)))) + 1) := hfix.symm
      _ ≤ (Real.exp (2 * (0.5 * Real.log ((1 + r) / (1 - r)) +
            probit ((1 + 0.95) / 2) * (1 / Real.sqrt ((n : ℝ) - 3)))) - 1) /
          (Real.exp (2 * (0.5 * Real.log ((1 + r) / (1 - r)) +
            probit ((1 + 0.95) / 2) * (1 / Real.sqrt ((n : ℝ) - 3)))) + 1) := by
          refine fisherRatio_mono (Real.exp_pos _) (Real.exp_le_exp.mpr ?_)
          nlinarith

/-- Witness for C9 at r = 0 and n = 5. -/
theorem correlationConfidenceInterval_contains_witness :
    (correlationConfidenceInterval 0 5 0.95).1 ≤ 0 ∧
      0 ≤ (correlationConfidenceInterval 0 5 0.95).2 :=
  correlationConfidenceInterval_contains 0 5 (by norm_num) (by norm_num) (by norm_num)

/-- Analysis configuration (`AnalysisConfig`). -/
structure AnalysisConfig where
  minSampleSize : ℕ
  significanceLevel : ℝ
  medicationWindowHoursBefore : ℚ
  medicationWindowHoursAfter : ℚ
  analyzeLags : Bool
  maxLagDays : ℕ
  analyzeDoseResponse : Bool
  analyzeTiming : Bool

/-- Dose-response pattern tags (`DoseResponseResult.pattern`). -/
inductive DoseResponsePattern where
  | linear
  | quadratic
  | threshold
  | inverted_u
  | none
deriving DecidableEq, Repr

/-- Dose-response analysis record (`DoseResponseResult`). The orchestrator
computes such records for significant pairs and discards them (see the C4
analysis), so only the shape is needed here. -/
structure DoseResponseResult where
  medication : String
  metric : SleepMetricKey
  doseLevels : List ℝ
  outcomes : List ℝ
  pattern : DoseResponsePattern
  optimalDose : Option ℝ
  doseCorrelation : ℝ
  pValue : ℝ

/-- One per-lag correlation entry of a lag analysis. -/
structure LagCorrelation where
  lag : ℕ
  correlation : ℝ
  pValue : ℝ

/-- Lag analysis record (`LagAnalysisResult`); like `DoseResponseResult`,
computed and discarded by the orchestrator. -/
structure LagAnalysisResult where
  medication : String
  metric : SleepMetricKey
  lagCorrelations : List LagCorrelation
  optimalLag : ℕ
  maxCorrelation : ℝ

/-- Interaction tags of `InteractionResult`. -/
inductive InteractionType where
  | synergistic
  | antagonistic
  | additive
deriving DecidableEq, Repr

/-- Pairwise interaction record (`InteractionResult`); `runCorrelationAnalysis`
returns an empty list of these (see C10), they are produced only by the
separate `analyzeInteractions` entry point, which no claim evaluates. -/
structure InteractionResult where
  medications : List String
  metric : SleepMetricKey
  individualCorrelations : List CorrelationResult
  combinedCorrelation : ℝ
  interactionEffect : ℝ
  interactionType : InteractionType
  pValue : ℝ
  isSignificant : Bool
  combinationNights : ℕ

/-- Per-medication aggregate of `getUniqueMedications`. The regex-derived
`displayName` of the source is presentation-only and omitted. -/
structure MedInfo where
  normalizedName : String
  drugClass : DrugClass
  occurrences : ℕ
  totalMg : ℚ
deriving DecidableEq, Repr

/-- Unique medications with occurrence counts (`getUniqueMedications`),
accumulated over the raw entries in first-occurrence order. -/
def getUniqueMedications (entries : List MedicationEntry) : List (String × MedInfo) :=
  entries.foldl (fun m e =>
    match mapGet m e.normalizedName with
    | some info =>
        mapSet m e.normalizedName
          { info with occurrences := info.occurrences + 1, totalMg := info.totalMg + e.totalMg }
    | none =>
        mapSet m e.normalizedName ⟨e.normalizedName, e.drugClass, 1, e.totalMg⟩) []

/-- Per-medication analysis record (`MedicationAnalysis`); the
`displayName` presentation field is omitted. The optional `doseResponse` and
`lagAnalysis` attachments exist in the interface but are never set by the
orchestrator. -/
structure MedicationAnalysis where
  medication : String
  drugClass : DrugClass
  totalNights : ℕ
  nightsWithMedication : ℕ
  nightsWithoutMedication : ℕ
  correlations : List CorrelationResult
  significantFindings : List CorrelationResult
  doseResponse : Option DoseResponseResult
  lagAnalysis : Option LagAnalysisResult

/-- Overall result of `runCorrelationAnalysis` (`AnalysisResults`). The
`dateRange` sentinel empty strings of the source are modelled as `none`; the
`sleepStats` map of descriptive statistics is presentation-only aggregation
that no claim inspects and is omitted. -/
structure AnalysisResults where
  totalNights : ℕ
  dateRangeStart : Option CalDate
  dateRangeEnd : Option CalDate
  medicationsAnalyzed : ℕ
  medicationAnalyses : List MedicationAnalysis
  significantCorrelations : List CorrelationResult
  topPositiveCorrelations : List CorrelationResult
  topNegativeCorrelations : List CorrelationResult
  interactions : List InteractionResult

/-- The parallel medication/metric vectors built per pair inside the
medication-by-metric loop of `runCorrelationAnalysis`: for each aligned point
carrying the metric, the mg total of the medication (0 when absent) paired
with the metric value. -/
def buildPairs (alignedData : List AlignedDataPoint) (medName : String)
    (metricKey : SleepMetricKey) : List (ℚ × ℚ) :=
  alignedData.filterMap fun dp =>
    match mapGet dp.sleepMetrics metricKey with
    | none => none
    | some metricVal =>
        some (((mapGet dp.medications medName).map MedFeature.totalMg).getD 0, metricVal)

/-- One iteration of the metric loop: run `analyzeCorrelation` on the pair
vectors (cast from the exact rationals to the reals of the numeric kernel).
The source also builds by-date maps here and, for significant results with
the corresponding config flags on, calls the dose-response and lag analyzers;
both calls bind dead locals whose values are discarded (see C4), so the pure
model elides them. -/
noncomputable def analyzeMedMetric (alignedData : List AlignedDataPoint)
    (medName : String) (drugClass : DrugClass) (metricKey : SleepMetricKey)
    (significanceLevel : ℝ) : Option CorrelationResult :=
  analyzeCorrelation medName drugClass metricKey
    ((buildPairs alignedData medName metricKey).map (fun p => (p.1 : ℝ)))
    ((buildPairs alignedData medName metricKey).map (fun p => (p.2 : ℝ)))
    significanceLevel

/-- The `MedicationAnalysis` assembled for one retained medication. -/
noncomputable def mkMedicationAnalysis (alignedData : List AlignedDataPoint)
    (significanceLevel : ℝ) (med : String × MedInfo) : MedicationAnalysis :=
  { medication := med.1
    drugClass := med.2.drugClass
    totalNights := alignedData.length
    nightsWithMedication :=
      alignedData.countP (fun dp => (mapGet dp.medications med.1).isSome)
    nightsWithoutMedication :=
      alignedData.length - alignedData.countP (fun dp => (mapGet dp.medications med.1).isSome)
    correlations :=
      SLEEP_METRICS.filterMap
        (fun k => analyzeMedMetric alignedData med.1 med.2.drugClass k significanceLevel)
    significantFindings :=
      (SLEEP_METRICS.filterMap
        (fun k => analyzeMedMetric alignedData med.1 med.2.drugClass k significanceLevel)).filter
        (fun c => c.isSignificant)
    doseResponse := none
    lagAnalysis := none }

/-- The stable descending sort by absolute Pearson correlation applied to the
significant results (the JS comparator subtracts absolute correlations and
the runtime sort is stable, which is exactly insertion sort under the
non-strict comparison). -/
noncomputable def sortByAbsPearsonDesc (l : List CorrelationResult) : List CorrelationResult :=
  l.insertionSort (fun a b => |b.pearsonR| ≤ |a.pearsonR|)

/-- Full orchestration (`runCorrelationAnalysis`): group doses into night
summaries, align with sleep records, retain medications meeting the
occurrence floor, analyze every medication-by-metric pair, and aggregate.
The source's two parallel accumulators (per-medication lists and the global
list) are expressed as a map followed by `flatMap`, which preserves the
accumulation order. -/
noncomputable def runCorrelationAnalysis (medicationEntries : List MedicationEntry)
    (sleepMetrics : List ProcessedSleepMetrics) (config : AnalysisConfig) :
    AnalysisResults :=
  { totalNights := (alignData (groupMedicationsBySleepNight medicationEntries) sleepMetrics).length
    dateRangeStart :=
      (((alignData (groupMedicationsBySleepNight medicationEntries) sleepMetrics).map
        (fun p => p.date)).insertionSort dateLe).head?
    dateRangeEnd :=
      (((alignData (groupMedicationsBySleepNight medicationEntries) sleepMetrics).map
        (fun p => p.date)).insertionSort dateLe).getLast?
    medicationsAnalyzed :=
      (((getUniqueMedications medicationEntries).filter
        (fun m => decide (config.minSampleSize ≤ m.2.occurrences))).map
        (mkMedicationAnalysis
          (alignData (groupMedicationsBySleepNight medicationEntries) sleepMetrics)
          config.significanceLevel)).length
    medicationAnalyses :=
      ((getUniqueMedications medicationEntries).filter
        (fun m => decide (config.minSampleSize ≤ m.2.occurrences))).map
        (mkMedicationAnalysis
          (alignData (groupMedicationsBySleepNight medicationEntries) sleepMetrics)
          config.significanceLevel)
    significantCorrelations :=
      ((((getUniqueMedications medicationEntries).filter
        (fun m => decide (config.minSampleSize ≤ m.2.occurrences))).map
        (mkMedicationAnalysis
          (alignData (groupMedicationsBySleepNight medicationEntries) sleepMetrics)
          config.significanceLevel)).flatMap
        (fun a => a.correlations)).filter (fun c => c.isSignificant)
    topPositiveCorrelations :=
      ((sortByAbsPearsonDesc
        (((((getUniqueMedications medicationEntries).filter
          (fun m => decide (config.minSampleSize ≤ m.2.occurrences))).map
          (mkMedicationAnalysis
            (alignData (groupMedicationsBySleepNight medicationEntries) sleepMetrics)
            config.significanceLevel)).flatMap
          (fun a => a.correlations)).filter (fun c => c.isSignificant))).filter
        (fun c => decide (0 < c.pearsonR))).take 10
    topNegativeCorrelations :=
      ((sortByAbsPearsonDesc
        (((((getUniqueMedications medicationEntries).filter
          (fun m => decide (config.minSampleSize ≤ m.2.occurrences))).map
          (mkMedicationAnalysis
            (alignData (groupMedicationsBySleepNight medicationEntries) sleepMetrics)
            config.significanceLevel)).flatMap
          (fun a => a.correlations)).filter (fun c => c.isSignificant))).filter
        (fun c => decide (c.pearsonR < 0))).take 10
    interactions := [] }

/-- C10: the orchestrator never reaches pairwise interaction detection — the
`interactions` field of every `runCorrelationAnalysis` result is the empty
list. -/
theorem runCorrelationAnalysis_interactions_empty
    (medicationEntries : List MedicationEntry)
    (sleepMetrics : List ProcessedSleepMetrics) (config : AnalysisConfig) :
    (runCorrelationAnalysis medicationEntries sleepMetrics config).interactions = [] :=
  rfl

/-- C4, behaviour exhibited: `runCorrelationAnalysis` attaches no
dose-response and no lag analysis to any returned medication analysis,
whatever the config flags say — the analyzers are invoked on dead locals and
their outputs dropped. -/
theorem runCorrelationAnalysis_no_attachments
    (medicationEntries : List MedicationEntry)
    (sleepMetrics : List ProcessedSleepMetrics) (config : AnalysisConfig) :
    ((runCorrelationAnalysis medicationEntries sleepMetrics config).medicationAnalyses.map
      (fun a => a.doseResponse) =
        List.replicate
          (runCorrelationAnalysis medicationEntries sleepMetrics config).medicationAnalyses.length
          Option.none) ∧
    ((runCorrelationAnalysis medicationEntries sleepMetrics config).medicationAnalyses.map
      (fun a => a.lagAnalysis) =
        List.replicate
          (runCorrelationAnalysis medicationEntries sleepMetrics config).medicationAnalyses.length
          Option.none) := by
  have keyDose : ∀ (l : List (String × MedInfo)) (A : List AlignedDataPoint) (s : ℝ),
      (l.map (mkMedicationAnalysis A s)).map (fun a => a.doseResponse) =
        List.replicate (l.map (mkMedicationAnalysis A s)).length Option.none := by
    intro l A s
    induction l with
    | nil => rfl
    | cons hd tl ih => simp [mkMedicationAnalysis, ih, List.replicate_succ]
  have keyLag : ∀ (l : List (String × MedInfo)) (A : List AlignedDataPoint) (s : ℝ),
      (l.map (mkMedicationAnalysis A s)).map (fun a => a.lagAnalysis) =
        List.replicate (l.map (mkMedicationAnalysis A s)).length Option.none := by
    intro l A s
    induction l with
    | nil => rfl
    | cons hd tl ih => simp [mkMedicationAnalysis, ih, List.replicate_succ]
  exact ⟨keyDose ((getUniqueMedications medicationEntries).filter
      (fun m => decide (config.minSampleSize ≤ m.2.occurrences)))
      (alignData (groupMedicationsBySleepNight medicationEntries) sleepMetrics)
      config.significanceLevel,
    keyLag ((getUniqueMedications medicationEntries).filter
      (fun m => decide (config.minSampleSize ≤ m.2.occurrences)))
      (alignData (groupMedicationsBySleepNight medicationEntries) sleepMetrics)
      config.significanceLevel⟩

/-- C7 as amended: the returned `significantCorrelations` list is the
significance filter of the concatenated per-medication correlation lists, in
encounter order; the orchestrator sorts a copy of it by descending absolute
Pearson correlation (stable, with no p-value tie-break), and the top
positive/negative lists are the first at most 10 entries of that sorted copy
with positive/negative correlation. -/
theorem runCorrelationAnalysis_tops_spec
    (medicationEntries : List MedicationEntry)
    (sleepMetrics : List ProcessedSleepMetrics) (config : AnalysisConfig) :
    ((runCorrelationAnalysis medicationEntries sleepMetrics config).significantCorrelations =
      (((runCorrelationAnalysis medicationEntries sleepMetrics config).medicationAnalyses.flatMap
        (fun a => a.correlations)).filter (fun c => c.isSignificant))) ∧
    ((sortByAbsPearsonDesc
        (runCorrelationAnalysis medicationEntries sleepMetrics config).significantCorrelations).Pairwise
      (fun a b => |b.pearsonR| ≤ |a.pearsonR|)) ∧
    ((runCorrelationAnalysis medicationEntries sleepMetrics config).topPositiveCorrelations =
      ((sortByAbsPearsonDesc
        (runCorrelationAnalysis medicationEntries sleepMetrics config).significantCorrelations).filter
        (fun c => decide (0 < c.pearsonR))).take 10) ∧
    ((runCorrelationAnalysis medicationEntries sleepMetrics config).topNegativeCorrelations =
      ((sortByAbsPearsonDesc
        (runCorrelationAnalysis medicationEntries sleepMetrics config).significantCorrelations).filter
        (fun c => decide (c.pearsonR < 0))).take 10) := by
  refine ⟨rfl, ?_, rfl, rfl⟩
  haveI : IsTotal CorrelationResult (fun a b => |b.pearsonR| ≤ |a.pearsonR|) :=
    ⟨fun a b => (le_total |b.pearsonR| |a.pearsonR|).imp id id⟩
  haveI : IsTrans CorrelationResult (fun a b => |b.pearsonR| ≤ |a.pearsonR|) :=
    ⟨fun _ _ _ h1 h2 => le_trans h2 h1⟩
  exact List.sorted_insertionSort _ _

/-- Concrete dose log used to refute the sortedness part of the claim about
the returned significant-correlation list: one medication taken on five of
ten nights at increasing doses, always at 20:00. -/
def c7entries : List MedicationEntry :=
  [⟨⟨2024, 1, 1⟩, 20, "drugx", DrugClass.other, 1, 1⟩,
   ⟨⟨2024, 1, 2⟩, 20, "drugx", DrugClass.other, 1, 2⟩,
   ⟨⟨2024, 1, 3⟩, 20, "drugx", DrugClass.other, 1, 3⟩,
   ⟨⟨2024, 1, 4⟩, 20, "drugx", DrugClass.other, 1, 4⟩,
   ⟨⟨2024, 1, 5⟩, 20, "drugx", DrugClass.other, 1, 5⟩]

/-- Metric assignment of one night of the concrete dataset: total sleep and
deep sleep carry the two given values, all other metrics are absent. -/
def c7metrics (t v : ℚ) : SleepMetricKey → Option ℚ := fun k =>
  match k with
  | .totalSleepMinutes => some t
  | .deepSleepMinutes => some v
  | _ => none

/-- Ten nights of sleep data for the counterexample. Deep sleep equals the
medication dose of the night, so that pair correlates perfectly (correlation
1, significant through the unit-magnitude guard of the p-value). Total sleep
takes the values 3,1,1,3,2,2,2,2,2,2, chosen with positive variance and
exactly zero covariance against the dose vector 1,2,3,4,5,0,...,0 (the means
are 2 and 1.5 and the covariance terms are signed halves summing to 0), so
its correlation is 0 divided by two positive standard deviations — a genuine
0 with no division by zero — and its p-value is exactly 1 through the
endpoint guard of the incomplete beta function. All these intermediate
values are halves, exactly representable in binary floating point, so the
source computes the same two significant records on this input. -/
def c7sleep : List ProcessedSleepMetrics :=
  [⟨⟨2024, 1, 1⟩, c7metrics 3 1⟩, ⟨⟨2024, 1, 2⟩, c7metrics 1 2⟩,
   ⟨⟨2024, 1, 3⟩, c7metrics 1 3⟩, ⟨⟨2024, 1, 4⟩, c7metrics 3 4⟩,
   ⟨⟨2024, 1, 5⟩, c7metrics 2 5⟩, ⟨⟨2024, 1, 6⟩, c7metrics 2 0⟩,
   ⟨⟨2024, 1, 7⟩, c7metrics 2 0⟩, ⟨⟨2024, 1, 8⟩, c7metrics 2 0⟩,
   ⟨⟨2024, 1, 9⟩, c7metrics 2 0⟩, ⟨⟨2024, 1, 10⟩, c7metrics 2 0⟩]

/-- Configuration for the counterexample run: occurrence floor 1 and a
significance level of 2, under which every computed p-value (at most 1)
counts as significant. -/
noncomputable def c7config : AnalysisConfig :=
  ⟨1, 2, 6, 2, false, 3, false, false⟩

/-- The aligned points of the counterexample run. -/
def c7aligned : List AlignedDataPoint :=
  alignData (groupMedicationsBySleepNight c7entries) c7sleep

/-- The unique-medication record of the counterexample run. -/
def c7info : MedInfo := ⟨"drugx", DrugClass.other, 5, 15⟩

/-- The medication vector of both analysed pairs of the counterexample run
(doses on the first five nights, zero on the rest). -/
noncomputable def c7x : List ℝ := [1, 2, 3, 4, 5, 0, 0, 0, 0, 0]

/-- The total-sleep metric vector of the counterexample run: positive
variance and zero covariance against the dose vector. -/
noncomputable def c7yc : List ℝ := [3, 1, 1, 3, 2, 2, 2, 2, 2, 2]

/-- The correlation record of the total-sleep pair of the counterexample run
(metric orthogonal to the dose vector, Pearson correlation exactly 0). -/
noncomputable def c7recTotal : CorrelationResult :=
  analyzeCorrelationRecord "drugx" DrugClass.other SleepMetricKey.totalSleepMinutes
    c7x c7yc 2

/-- The correlation record of the deep-sleep pair of the counterexample run
(metric equals dose, Pearson correlation 1). -/
noncomputable def c7recDeep : CorrelationResult :=
  analyzeCorrelationRecord "drugx" DrugClass.other SleepMetricKey.deepSleepMinutes
    c7x c7x 2

theorem c7_pearson_orth : pearsonCorrelation c7x c7yc = 0 := by
  have hcov : sampleCovariance c7x c7yc = 0 := by
    unfold sampleCovariance mean c7x c7yc
    norm_num
  unfold pearsonCorrelation
  rw [if_neg (by norm_num [c7x, c7yc])]
  unfold sampleCorrelation
  rw [hcov, zero_div, zero_div]

theorem c7_sampleVariance_x : sampleVariance c7x = 65 / 18 := by
  unfold sampleVariance mean c7x
  norm_num

theorem c7_pearson_self : pearsonCorrelation c7x c7x = 1 := by
  have hcov : sampleCovariance c7x c7x = 65 / 18 := by
    unfold sampleCovariance mean c7x
    norm_num
  unfold pearsonCorrelation
  rw [if_neg (by norm_num [c7x])]
  unfold sampleCorrelation sampleStandardDeviation
  rw [hcov, c7_sampleVariance_x, div_div,
    Real.mul_self_sqrt (by norm_num : (0:ℝ) ≤ 65 / 18)]
  norm_num

theorem c7_pvalue_zero : correlationPValue 0 10 = 1 := by
  unfold correlationPValue
  rw [if_neg (by norm_num)]
  rw [zero_mul, abs_zero]
  unfold tDistributionCDF
  rw [if_neg (by norm_num)]
  have h3 : (((10:ℕ):ℝ) - 2) / ((((10:ℕ):ℝ) - 2) + 0 * 0) = 1 := by norm_num
  rw [h3]
  unfold incompleteBeta
  rw [if_neg (by norm_num), if_pos rfl]
  norm_num

theorem c7_pvalue_one (n : ℕ) : correlationPValue 1 n = 1 := by
  unfold correlationPValue
  rw [if_pos (Or.inr (by norm_num))]

theorem c7_len_x : c7x.length = 10 := by
  norm_num [c7x]

theorem c7recTotal_pearsonR : c7recTotal.pearsonR = 0 := by
  show pearsonCorrelation c7x c7yc = 0
  exact c7_pearson_orth

theorem c7recDeep_pearsonR : c7recDeep.pearsonR = 1 := by
  show pearsonCorrelation c7x c7x = 1
  exact c7_pearson_self

theorem c7recTotal_pValue : c7recTotal.pValue = 1 := by
  show correlationPValue (pearsonCorrelation c7x c7yc) c7x.length = 1
  rw [c7_pearson_orth, c7_len_x]
  exact c7_pvalue_zero

theorem c7recDeep_pValue : c7recDeep.pValue = 1 := by
  show correlationPValue (pearsonCorrelation c7x c7x) c7x.length = 1
  rw [c7_pearson_self]
  exact c7_pvalue_one _

theorem c7recTotal_isSignificant : c7recTotal.isSignificant = true := by
  show decide (correlationPValue (pearsonCorrelation c7x c7yc) c7x.length < (2:ℝ)) = true
  rw [c7_pearson_orth, c7_len_x, c7_pvalue_zero]
  simp only [decide_eq_true_eq]
  norm_num

theorem c7recDeep_isSignificant : c7recDeep.isSignificant = true := by
  show decide (correlationPValue (pearsonCorrelation c7x c7x) c7x.length < (2:ℝ)) = true
  rw [c7_pearson_self, c7_pvalue_one]
  simp only [decide_eq_true_eq]
  norm_num

theorem c7_buildPairs_total :
    buildPairs c7aligned "drugx" SleepMetricKey.totalSleepMinutes =
      [(1, 3), (2, 1), (3, 1), (4, 3), (5, 2), (0, 2), (0, 2), (0, 2), (0, 2), (0, 2)] := by
  decide

theorem c7_buildPairs_deep :
    buildPairs c7aligned "drugx" SleepMetricKey.deepSleepMinutes =
      [(1, 1), (2, 2), (3, 3), (4, 4), (5, 5), (0, 0), (0, 0), (0, 0), (0, 0), (0, 0)] := by
  decide

theorem c7_cast_total_med :
    (buildPairs c7aligned "drugx" SleepMetricKey.totalSleepMinutes).map
      (fun p => (p.1 : ℝ)) = c7x := by
  rw [c7_buildPairs_total]
  unfold c7x
  norm_num

theorem c7_cast_total_metric :
    (buildPairs c7aligned "drugx" SleepMetricKey.totalSleepMinutes).map
      (fun p => (p.2 : ℝ)) = c7yc := by
  rw [c7_buildPairs_total]
  unfold c7yc
  norm_num

theorem c7_cast_deep_med :
    (buildPairs c7aligned "drugx" SleepMetricKey.deepSleepMinutes).map
      (fun p => (p.1 : ℝ)) = c7x := by
  rw [c7_buildPairs_deep]
  unfold c7x
  norm_num

theorem c7_cast_deep_metric :
    (buildPairs c7aligned "drugx" SleepMetricKey.deepSleepMinutes).map
      (fun p => (p.2 : ℝ)) = c7x := by
  rw [c7_buildPairs_deep]
  unfold c7x
  norm_num

theorem c7_mm_total :
    analyzeMedMetric c7aligned "drugx" DrugClass.other SleepMetricKey.totalSleepMinutes 2 =
      some c7recTotal := by
  unfold analyzeMedMetric
  rw [c7_cast_total_med, c7_cast_total_metric]
  unfold analyzeCorrelation
  rw [if_neg (by rw [c7_len_x]; norm_num)]
  rfl

theorem c7_mm_deep :
    analyzeMedMetric c7aligned "drugx" DrugClass.other SleepMetricKey.deepSleepMinutes 2 =
      some c7recDeep := by
  unfold analyzeMedMetric
  rw [c7_cast_deep_med, c7_cast_deep_metric]
  unfold analyzeCorrelation
  rw [if_neg (by rw [c7_len_x]; norm_num)]
  rfl

theorem c7_mm_none (k : SleepMetricKey)
    (hk : buildPairs c7aligned "drugx" k = []) :
    analyzeMedMetric c7aligned "drugx" DrugClass.other k 2 = none := by
  unfold analyzeMedMetric
  rw [hk]
  unfold analyzeCorrelation
  rw [if_pos (by simp)]

theorem c7_correlations :
    SLEEP_METRICS.filterMap
      (fun k => analyzeMedMetric c7aligned "drugx" DrugClass.other k 2) =
      [c7recTotal, c7recDeep] := by
  simp only [SLEEP_METRICS, List.filterMap_cons, List.filterMap_nil,
    c7_mm_total, c7_mm_deep,
    c7_mm_none SleepMetricKey.remSleepMinutes (by decide),
    c7_mm_none SleepMetricKey.lightSleepMinutes (by decide),
    c7_mm_none SleepMetricKey.sleepEfficiency (by decide),
    c7_mm_none SleepMetricKey.latencyMinutes (by decide),
    c7_mm_none SleepMetricKey.avgHrv (by decide),
    c7_mm_none SleepMetricKey.avgHeartRate (by decide),
    c7_mm_none SleepMetricKey.lowestHeartRate (by decide),
    c7_mm_none SleepMetricKey.restlessPeriods (by decide),
    c7_mm_none SleepMetricKey.sleepScore (by decide),
    c7_mm_none SleepMetricKey.deepSleepPercent (by decide),
    c7_mm_none SleepMetricKey.remSleepPercent (by decide)]

theorem c7_unique : getUniqueMedications c7entries = [("drugx", c7info)] := by
  simp only [getUniqueMedications, c7entries, List.foldl_cons, List.foldl_nil,
    mapGet, mapSet, c7info]
  norm_num

theorem c7_significant_list :
    (runCorrelationAnalysis c7entries c7sleep c7config).significantCorrelations =
      [c7recTotal, c7recDeep] := by
  show ((((getUniqueMedications c7entries).filter
      (fun m => decide (c7config.minSampleSize ≤ m.2.occurrences))).map
      (mkMedicationAnalysis
        (alignData (groupMedicationsBySleepNight c7entries) c7sleep)
        c7config.significanceLevel)).flatMap
      (fun a => a.correlations)).filter (fun c => c.isSignificant) =
    [c7recTotal, c7recDeep]
  rw [c7_unique]
  rw [show (alignData (groupMedicationsBySleepNight c7entries) c7sleep) = c7aligned from rfl]
  rw [show c7config.significanceLevel = (2:ℝ) from rfl]
  rw [show ([("drugx", c7info)].filter
      (fun m => decide (c7config.minSampleSize ≤ m.2.occurrences))) =
      [("drugx", c7info)] from by decide]
  rw [List.map_cons, List.map_nil, List.flatMap_cons, List.flatMap_nil, List.append_nil]
  rw [show (mkMedicationAnalysis c7aligned 2 ("drugx", c7info)).correlations =
      SLEEP_METRICS.filterMap
        (fun k => analyzeMedMetric c7aligned "drugx" DrugClass.other k 2) from rfl]
  rw [c7_correlations]
  rw [List.filter_cons, List.filter_cons, List.filter_nil]
  rw [c7recTotal_isSignificant, c7recDeep_isSignificant]
  rfl

/-- Counterexample for C7: on the concrete ten-night dataset both analysed
pairs are significant under the caller-supplied significance level 2 — the
total-sleep pair with correlation exactly 0 (zero covariance over positive
variances, p-value exactly 1 through the incomplete-beta endpoint guard; no
division by zero or non-finite value arises) and the deep-sleep pair with
correlation 1 (p-value 1 through the unit-magnitude guard). The
`significantCorrelations` field of the returned results then holds the
zero-correlation record before the unit-correlation record, in encounter
order, so it is not sorted by descending absolute Pearson correlation with
p-value tie-break. -/
theorem runCorrelationAnalysis_sorted_claim_counterexample :
    ¬ ((runCorrelationAnalysis c7entries c7sleep c7config).significantCorrelations.Pairwise
      (fun a b => |b.pearsonR| < |a.pearsonR| ∨
        (|a.pearsonR| = |b.pearsonR| ∧ a.pValue ≤ b.pValue))) := by
  rw [c7_significant_list]
  intro hpw
  have hrel := (List.pairwise_cons.mp hpw).1 c7recDeep (List.mem_cons_self _ _)
  rw [c7recTotal_pearsonR, c7recDeep_pearsonR] at hrel
  rcases hrel with h | h
  · rw [abs_zero, abs_one] at h
    norm_num at h
  · obtain ⟨h1, _⟩ := h
    rw [abs_zero, abs_one] at h1
    norm_num at h1

end SleepAnalysis
